import Mathlib

/-!
Verification of gpu_test: transform math, shader loading, startup and staged upload.

A shallow embedding of `src/src/common.cpp`, `src/src/main.cpp` and
`src/include/common.hpp`.

The C `float` scalars of the math library are read over an arbitrary field `α`
(the theorems instantiate `α := ℝ`; the same definitions evaluate over `ℚ`).
The square root used by `Vector3_Normalize` is passed as a function, which the
theorems instantiate with `Real.sqrt`.
-/

namespace GpuTest

/-! ## Data model (`common.hpp`) -/

/-- The struct `Matrix4x4` of `common.hpp`: sixteen scalars, row by row. -/
structure Matrix4x4 (α : Type) where
  m11 : α
  m12 : α
  m13 : α
  m14 : α
  m21 : α
  m22 : α
  m23 : α
  m24 : α
  m31 : α
  m32 : α
  m33 : α
  m34 : α
  m41 : α
  m42 : α
  m43 : α
  m44 : α
  deriving DecidableEq, Repr

/-- The struct `Vector3` of `common.hpp`. -/
structure Vector3 (α : Type) where
  x : α
  y : α
  z : α
  deriving DecidableEq, Repr

/-! ## Matrix math (`common.cpp`) -/

section MathLibrary

variable {α : Type} [Field α]

/-- The function `Matrix4x4_Multiply` (common.cpp:178-280). -/
def Matrix4x4_Multiply (matrix1 matrix2 : Matrix4x4 α) : Matrix4x4 α :=
  { m11 := (matrix1.m11 * matrix2.m11) + (matrix1.m12 * matrix2.m21) +
           (matrix1.m13 * matrix2.m31) + (matrix1.m14 * matrix2.m41)
    m12 := (matrix1.m11 * matrix2.m12) + (matrix1.m12 * matrix2.m22) +
           (matrix1.m13 * matrix2.m32) + (matrix1.m14 * matrix2.m42)
    m13 := (matrix1.m11 * matrix2.m13) + (matrix1.m12 * matrix2.m23) +
           (matrix1.m13 * matrix2.m33) + (matrix1.m14 * matrix2.m43)
    m14 := (matrix1.m11 * matrix2.m14) + (matrix1.m12 * matrix2.m24) +
           (matrix1.m13 * matrix2.m34) + (matrix1.m14 * matrix2.m44)
    m21 := (matrix1.m21 * matrix2.m11) + (matrix1.m22 * matrix2.m21) +
           (matrix1.m23 * matrix2.m31) + (matrix1.m24 * matrix2.m41)
    m22 := (matrix1.m21 * matrix2.m12) + (matrix1.m22 * matrix2.m22) +
           (matrix1.m23 * matrix2.m32) + (matrix1.m24 * matrix2.m42)
    m23 := (matrix1.m21 * matrix2.m13) + (matrix1.m22 * matrix2.m23) +
           (matrix1.m23 * matrix2.m33) + (matrix1.m24 * matrix2.m43)
    m24 := (matrix1.m21 * matrix2.m14) + (matrix1.m22 * matrix2.m24) +
           (matrix1.m23 * matrix2.m34) + (matrix1.m24 * matrix2.m44)
    m31 := (matrix1.m31 * matrix2.m11) + (matrix1.m32 * matrix2.m21) +
           (matrix1.m33 * matrix2.m31) + (matrix1.m34 * matrix2.m41)
    m32 := (matrix1.m31 * matrix2.m12) + (matrix1.m32 * matrix2.m22) +
           (matrix1.m33 * matrix2.m32) + (matrix1.m34 * matrix2.m42)
    m33 := (matrix1.m31 * matrix2.m13) + (matrix1.m32 * matrix2.m23) +
           (matrix1.m33 * matrix2.m33) + (matrix1.m34 * matrix2.m43)
    m34 := (matrix1.m31 * matrix2.m14) + (matrix1.m32 * matrix2.m24) +
           (matrix1.m33 * matrix2.m34) + (matrix1.m34 * matrix2.m44)
    m41 := (matrix1.m41 * matrix2.m11) + (matrix1.m42 * matrix2.m21) +
           (matrix1.m43 * matrix2.m31) + (matrix1.m44 * matrix2.m41)
    m42 := (matrix1.m41 * matrix2.m12) + (matrix1.m42 * matrix2.m22) +
           (matrix1.m43 * matrix2.m32) + (matrix1.m44 * matrix2.m42)
    m43 := (matrix1.m41 * matrix2.m13) + (matrix1.m42 * matrix2.m23) +
           (matrix1.m43 * matrix2.m33) + (matrix1.m44 * matrix2.m43)
    m44 := (matrix1.m41 * matrix2.m14) + (matrix1.m42 * matrix2.m24) +
           (matrix1.m43 * matrix2.m34) + (matrix1.m44 * matrix2.m44) }

/-- The function `Matrix4x4_CreateTranslation` (common.cpp:292-300). -/
def Matrix4x4_CreateTranslation (x y z : α) : Matrix4x4 α :=
  { m11 := 1, m12 := 0, m13 := 0, m14 := 0
    m21 := 0, m22 := 1, m23 := 0, m24 := 0
    m31 := 0, m32 := 0, m33 := 1, m34 := 0
    m41 := x, m42 := y, m43 := z, m44 := 1 }

/-- The function `Matrix4x4_CreateOrthographicOffCenter` (common.cpp:302-316). -/
def Matrix4x4_CreateOrthographicOffCenter
    (left right bottom top zNearPlane zFarPlane : α) : Matrix4x4 α :=
  { m11 := 2 / (right - left), m12 := 0, m13 := 0, m14 := 0
    m21 := 0, m22 := 2 / (top - bottom), m23 := 0, m24 := 0
    m31 := 0, m32 := 0, m33 := 1 / (zNearPlane - zFarPlane), m34 := 0
    m41 := (left + right) / (left - right)
    m42 := (top + bottom) / (bottom - top)
    m43 := zNearPlane / (zNearPlane - zFarPlane)
    m44 := 1 }

/-- The function `Vector3_Normalize` (common.cpp:355-363); `sqrtf` stands for
`SDL_sqrtf`. -/
def Vector3_Normalize (sqrtf : α → α) (vec : Vector3 α) : Vector3 α :=
  let magnitude := sqrtf ((vec.x * vec.x) + (vec.y * vec.y) + (vec.z * vec.z))
  { x := vec.x / magnitude
    y := vec.y / magnitude
    z := vec.z / magnitude }

/-- The function `Vector3_Dot` (common.cpp:365-368). -/
def Vector3_Dot (vecA vecB : Vector3 α) : α :=
  (vecA.x * vecB.x) + (vecA.y * vecB.y) + (vecA.z * vecB.z)

/-- The function `Vector3_Cross` (common.cpp:370-377). -/
def Vector3_Cross (vecA vecB : Vector3 α) : Vector3 α :=
  { x := vecA.y * vecB.z - vecB.y * vecA.z
    y := -(vecA.x * vecB.z - vecB.x * vecA.z)
    z := vecA.x * vecB.y - vecB.x * vecA.y }

/-- The function `Matrix4x4_CreateLookAt` (common.cpp:333-353). -/
def Matrix4x4_CreateLookAt (sqrtf : α → α)
    (cameraPosition cameraTarget cameraUpVector : Vector3 α) : Matrix4x4 α :=
  let targetToPosition : Vector3 α :=
    { x := cameraPosition.x - cameraTarget.x
      y := cameraPosition.y - cameraTarget.y
      z := cameraPosition.z - cameraTarget.z }
  let vectorA := Vector3_Normalize sqrtf targetToPosition
  let vectorB := Vector3_Normalize sqrtf (Vector3_Cross cameraUpVector vectorA)
  let vectorC := Vector3_Cross vectorA vectorB
  { m11 := vectorB.x, m12 := vectorC.x, m13 := vectorA.x, m14 := 0
    m21 := vectorB.y, m22 := vectorC.y, m23 := vectorA.y, m24 := 0
    m31 := vectorB.z, m32 := vectorC.z, m33 := vectorA.z, m34 := 0
    m41 := -Vector3_Dot vectorB cameraPosition
    m42 := -Vector3_Dot vectorC cameraPosition
    m43 := -Vector3_Dot vectorA cameraPosition
    m44 := 1 }

/-! ## Reference notions the statements compare the code with -/

/-- The textbook cross product `a x b`, component by component:
`(a.y*b.z - a.z*b.y, a.z*b.x - a.x*b.z, a.x*b.y - a.y*b.x)`. -/
def textbookCross (a b : Vector3 α) : Vector3 α :=
  { x := a.y * b.z - a.z * b.y
    y := a.z * b.x - a.x * b.z
    z := a.x * b.y - a.y * b.x }

/-- Component-wise negation of a vector. -/
def Vector3.neg (v : Vector3 α) : Vector3 α :=
  { x := -v.x, y := -v.y, z := -v.z }

/-- First column of the upper-left 3x3 block of a matrix. -/
def Matrix4x4.column1 (M : Matrix4x4 α) : Vector3 α :=
  { x := M.m11, y := M.m21, z := M.m31 }

/-- Second column of the upper-left 3x3 block of a matrix. -/
def Matrix4x4.column2 (M : Matrix4x4 α) : Vector3 α :=
  { x := M.m12, y := M.m22, z := M.m32 }

/-- Third column of the upper-left 3x3 block of a matrix. -/
def Matrix4x4.column3 (M : Matrix4x4 α) : Vector3 α :=
  { x := M.m13, y := M.m23, z := M.m33 }

/-- Determinant of the upper-left 3x3 block of a matrix (first-row expansion). -/
def Matrix4x4.det3 (M : Matrix4x4 α) : α :=
  M.m11 * (M.m22 * M.m33 - M.m23 * M.m32)
    - M.m12 * (M.m21 * M.m33 - M.m23 * M.m31)
    + M.m13 * (M.m21 * M.m32 - M.m22 * M.m31)

/-- The scalar multiple `k * d` of a vector. -/
def Vector3.scale (k : α) (d : Vector3 α) : Vector3 α :=
  { x := k * d.x, y := k * d.y, z := k * d.z }

/-- The difference `a - b` of two vectors. -/
def Vector3.sub (a b : Vector3 α) : Vector3 α :=
  { x := a.x - b.x, y := a.y - b.y, z := a.z - b.z }

/-- A homogeneous point: the row vector `(x, y, z, w)`. -/
structure Vector4 (α : Type) where
  x : α
  y : α
  z : α
  w : α
  deriving DecidableEq, Repr

/-- Applying a matrix to a point: the row vector `(x, y, z, 1)` times `M`. -/
def transformPoint (p : Vector3 α) (M : Matrix4x4 α) : Vector4 α :=
  { x := p.x * M.m11 + p.y * M.m21 + p.z * M.m31 + 1 * M.m41
    y := p.x * M.m12 + p.y * M.m22 + p.z * M.m32 + 1 * M.m42
    z := p.x * M.m13 + p.y * M.m23 + p.z * M.m33 + 1 * M.m43
    w := p.x * M.m14 + p.y * M.m24 + p.z * M.m34 + 1 * M.m44 }

/-- An axis-aligned box given by its extent on each axis. -/
structure Box (α : Type) where
  xMin : α
  xMax : α
  yMin : α
  yMax : α
  zMin : α
  zMax : α

/-- The canonical clip volume: x and y in [-1, 1], depth in [0, 1]. -/
def canonicalClipVolume : Box α :=
  { xMin := -1, xMax := 1, yMin := -1, yMax := 1, zMin := 0, zMax := 1 }

/-- The centre of a box, as a homogeneous point with w = 1. -/
def Box.centre (b : Box α) : Vector4 α :=
  { x := (b.xMin + b.xMax) / 2
    y := (b.yMin + b.yMax) / 2
    z := (b.zMin + b.zMax) / 2
    w := 1 }

/-- The centre of the near face (least depth) of a box, with w = 1. -/
def Box.nearFaceCentre (b : Box α) : Vector4 α :=
  { x := (b.xMin + b.xMax) / 2
    y := (b.yMin + b.yMax) / 2
    z := b.zMin
    w := 1 }

/-- A homogeneous point with w = 1 that is one of the eight corners of a box. -/
def Box.IsCorner (b : Box α) (p : Vector4 α) : Prop :=
  (p.x = b.xMin ∨ p.x = b.xMax) ∧ (p.y = b.yMin ∨ p.y = b.yMax) ∧
    (p.z = b.zMin ∨ p.z = b.zMax) ∧ p.w = 1

/-- A homogeneous point with w = 1 lying in a box (faces included). -/
def Box.Contains [LE α] (b : Box α) (p : Vector4 α) : Prop :=
  b.xMin ≤ p.x ∧ p.x ≤ b.xMax ∧ b.yMin ≤ p.y ∧ p.y ≤ b.yMax ∧
    b.zMin ≤ p.z ∧ p.z ≤ b.zMax ∧ p.w = 1

end MathLibrary

/-! ## Device, window and file system

The SDL calls are an oracle: a `World` fixes what each call returns, and every
function of the program returns, next to its C return value, the list of
external calls it made, in order. -/

/-- The enum `SDL_GPUShaderStage` of SDL3. -/
inductive SDL_GPUShaderStage where
  | SDL_GPU_SHADERSTAGE_VERTEX
  | SDL_GPU_SHADERSTAGE_FRAGMENT
  deriving DecidableEq, Repr

/-- The constant `SDL_GPU_SHADERFORMAT_INVALID` of SDL3 (`0`). -/
def SDL_GPU_SHADERFORMAT_INVALID : Nat := 0

/-- The constant `SDL_GPU_SHADERFORMAT_SPIRV` of SDL3 (`1u << 1`). -/
def SDL_GPU_SHADERFORMAT_SPIRV : Nat := 2

/-- The struct `SDL_GPUShaderCreateInfo`, with the fields `LoadShader` sets
(common.cpp:83-93); `code` holds the `code_size` bytes the pointer refers to. -/
structure SDL_GPUShaderCreateInfo where
  code_size : Nat
  code : List Nat
  entrypoint : List Char
  format : Nat
  stage : SDL_GPUShaderStage
  num_samplers : Nat
  num_storage_textures : Nat
  num_storage_buffers : Nat
  num_uniform_buffers : Nat
  deriving DecidableEq, Repr

/-- The struct `SDL_GPUComputePipelineCreateInfo` of SDL3, all fields in
declaration order; `code` holds the bytes the pointer refers to. -/
structure SDL_GPUComputePipelineCreateInfo where
  code_size : Nat
  code : List Nat
  entrypoint : List Char
  format : Nat
  num_samplers : Nat
  num_readonly_storage_textures : Nat
  num_readonly_storage_buffers : Nat
  num_readwrite_storage_textures : Nat
  num_readwrite_storage_buffers : Nat
  num_uniform_buffers : Nat
  threadcount_x : Nat
  threadcount_y : Nat
  threadcount_z : Nat
  props : Nat
  deriving DecidableEq, Repr

/-- The constant `SDL_PIXELFORMAT_ABGR8888` of SDL3 (`0x16762004u`). -/
def SDL_PIXELFORMAT_ABGR8888 : Nat := 0x16762004

/-- The struct `SDL_Surface` as far as `LoadImage` looks at it: the pixel format,
the size and the pixel bytes. -/
structure SDL_Surface where
  format : Nat
  w : Nat
  h : Nat
  pixels : List Nat
  deriving DecidableEq, Repr

/-- What the SDL calls return. A handle is a number; `none` is `NULL`. -/
structure World where
  /-- Whether `SDL_Init` succeeds. -/
  sdlInit : Bool
  /-- The value of `SDL_GetBasePath()`. -/
  getBasePath : Option (List Char)
  /-- Whether `SDL_CreateGPUDevice` returns a device. -/
  createGPUDevice : Bool
  /-- Whether `SDL_CreateWindow` returns a window. -/
  createWindow : Bool
  /-- The value of `SDL_ClaimWindowForGPUDevice`. -/
  claimWindow : Bool
  /-- The value of `SDL_GetGPUShaderFormats`. -/
  shaderFormats : Nat
  /-- The value of `SDL_LoadFile` at a path: the bytes of the file, or `NULL`. -/
  loadFile : List Char → Option (List Nat)
  /-- The value of `SDL_CreateGPUShader` at a descriptor. -/
  createGPUShader : SDL_GPUShaderCreateInfo → Option Nat
  /-- The value of `SDL_CreateGPUGraphicsPipeline` for a vertex and fragment shader. -/
  createGPUGraphicsPipeline : Nat → Nat → Option Nat
  /-- Bytes found in a fresh vertex buffer before anything is copied into it. -/
  vertexBufferInit : Nat → Nat
  /-- Bytes found in a fresh index buffer before anything is copied into it. -/
  indexBufferInit : Nat → Nat
  /-- Bytes found in a freshly mapped transfer buffer before anything is written. -/
  transferBufferInit : Nat → Nat
  /-- The value of `SDL_CreateGPUComputePipeline` at a descriptor. -/
  createGPUComputePipeline : SDL_GPUComputePipelineCreateInfo → Option Nat
  /-- The value of `SDL_LoadBMP` at a path: the decoded bitmap, or `NULL`. -/
  loadBMP : List Char → Option SDL_Surface
  /-- The value of `SDL_ConvertSurface` for a surface and a pixel format. -/
  convertSurface : SDL_Surface → Nat → Option SDL_Surface
  /-- Whether a failed `SDL_assert` returns to the code after it (assertions
  compiled out, or the failure ignored); otherwise the process stops there. -/
  assertReturns : Bool

/-- One external call, as it appears in the trace of a function. -/
inductive Event where
  | SDL_Init
  | SDL_GetBasePath
  | SDL_CreateGPUDevice
  | SDL_CreateWindow
  | SDL_ClaimWindowForGPUDevice
  | SDL_Log (fmt : String)
  | SDL_LogWarn (fmt : String)
  | SDL_LogError (fmt : String)
  | SDL_GetGPUShaderFormats
  | SDL_LoadFile (path : List Char)
  | SDL_CreateGPUShader (info : SDL_GPUShaderCreateInfo)
  | SDL_free
  | SDL_GetGPUSwapchainTextureFormat
  | SDL_CreateGPUGraphicsPipeline (vertexShader fragmentShader : Nat)
  | SDL_ReleaseGPUShader (shader : Nat)
  | SDL_CreateGPUBuffer (size : Nat)
  | SDL_CreateGPUTransferBuffer (size : Nat)
  | SDL_MapGPUTransferBuffer
  | SDL_UnmapGPUTransferBuffer
  | SDL_AcquireGPUCommandBuffer
  | SDL_BeginGPUCopyPass
  | SDL_UploadToGPUBuffer (transferOffset bufferOffset size : Nat)
  | SDL_EndGPUCopyPass
  | SDL_SubmitGPUCommandBuffer
  | SDL_ReleaseGPUTransferBuffer
  | renderLoopIteration
  | SDL_CreateGPUComputePipeline (info : SDL_GPUComputePipelineCreateInfo)
  | SDL_LoadBMP (path : List Char)
  | SDL_assert (condition : String)
  | SDL_ConvertSurface (surface : SDL_Surface) (format : Nat)
  | SDL_DestroySurface (surface : SDL_Surface)
  deriving DecidableEq, Repr

/-! ## C strings -/

/-- The C string `s.c_str()` as a callee reads it: the characters before the
first NUL of the `std::string`. -/
def c_str (s : List Char) : List Char :=
  s.takeWhile (fun c => c != Char.ofNat 0)

/-- The function `SDL_strstr`: the tail of `haystack` at the first occurrence of
`needle`, or `none` for `NULL`. -/
def SDL_strstr : List Char → List Char → Option (List Char)
  | [], needle => if needle.isEmpty then some [] else none
  | c :: cs, needle =>
    if needle.isPrefixOf (c :: cs) then some (c :: cs) else SDL_strstr cs needle

/-- How `SDL_snprintf` prints a `%s` argument: the string, or `(null)` for `NULL`. -/
def printString : Option (List Char) → List Char
  | some s => s
  | none => "(null)".toList

/-- The call `SDL_snprintf(fullPath, sizeof(fullPath), "%sshaders/compiled/%s.spv",
basePath, fileName.c_str())` with `char fullPath[256]`: at most 255 characters
are kept. -/
def shaderFullPath (basePath : Option (List Char)) (fileName : List Char) : List Char :=
  (printString basePath ++ "shaders/compiled/".toList ++ c_str fileName ++ ".spv".toList).take 255

/-! ## Shader loading (`common.cpp`) -/

/-- The stage selection of `LoadShader` (common.cpp:50-60): `none` is the
branch that logs "Invalid shader stage!" and returns `NULL`. -/
def LoadShader_stage (fileName : List Char) : Option SDL_GPUShaderStage :=
  if (SDL_strstr (c_str fileName) ".vert".toList).isSome then
    some SDL_GPUShaderStage.SDL_GPU_SHADERSTAGE_VERTEX
  else if (SDL_strstr (c_str fileName) ".frag".toList).isSome then
    some SDL_GPUShaderStage.SDL_GPU_SHADERSTAGE_FRAGMENT
  else
    none

/-- The function `LoadShader` (common.cpp:42-103); `basePath` is the static
`basePath` of common.cpp. Returns the shader handle (`none` for `NULL`) and the
external calls made. -/
def LoadShader (w : World) (basePath : Option (List Char)) (fileName : List Char)
    (samplerCount uniformBufferCount storageBufferCount storageTextureCount : Nat) :
    Option Nat × List Event :=
  match LoadShader_stage fileName with
  | none => (none, [Event.SDL_LogWarn "Invalid shader stage!"])
  | some stage =>
    let backendFormats := w.shaderFormats
    if backendFormats &&& SDL_GPU_SHADERFORMAT_SPIRV ≠ 0 then
      let fullPath := shaderFullPath basePath fileName
      let format := SDL_GPU_SHADERFORMAT_SPIRV
      let entrypoint := "main".toList
      match w.loadFile fullPath with
      | none =>
        (none, [Event.SDL_GetGPUShaderFormats, Event.SDL_LoadFile fullPath,
          Event.SDL_LogError "Failed to load shader from disk! path: %s    error: %s"])
      | some code =>
        let shaderInfo : SDL_GPUShaderCreateInfo :=
          { code_size := code.length
            code := code
            entrypoint := entrypoint
            format := format
            stage := stage
            num_samplers := samplerCount
            num_storage_textures := storageTextureCount
            num_storage_buffers := storageBufferCount
            num_uniform_buffers := uniformBufferCount }
        match w.createGPUShader shaderInfo with
        | none =>
          (none, [Event.SDL_GetGPUShaderFormats, Event.SDL_LoadFile fullPath,
            Event.SDL_CreateGPUShader shaderInfo,
            Event.SDL_Log "Failed to create shader! error: %s", Event.SDL_free])
        | some shader =>
          (some shader, [Event.SDL_GetGPUShaderFormats, Event.SDL_LoadFile fullPath,
            Event.SDL_CreateGPUShader shaderInfo, Event.SDL_free])
    else
      (none, [Event.SDL_GetGPUShaderFormats,
        Event.SDL_LogError "Unrecognized backend shader format!"])

/-- What `CreateComputePipelineFromShader` leaves behind: the pipeline handle it
returns (`none` for `NULL`), the external calls it made, and the value of the
caller's `*createInfo` when it returns. -/
structure ComputePipelineOutcome where
  pipeline : Option Nat
  events : List Event
  createInfo : SDL_GPUComputePipelineCreateInfo
  deriving DecidableEq, Repr

/-- The function `CreateComputePipelineFromShader` (common.cpp:105-147);
`createInfo` is the value the pointer argument refers to on entry. -/
def CreateComputePipelineFromShader (w : World) (basePath : Option (List Char))
    (fileName : List Char) (createInfo : SDL_GPUComputePipelineCreateInfo) :
    ComputePipelineOutcome :=
  let backendFormats := w.shaderFormats
  if backendFormats &&& SDL_GPU_SHADERFORMAT_SPIRV ≠ 0 then
    let fullPath := shaderFullPath basePath fileName
    let format := SDL_GPU_SHADERFORMAT_SPIRV
    let entrypoint := "main".toList
    match w.loadFile fullPath with
    | none =>
      { pipeline := none
        events := [Event.SDL_GetGPUShaderFormats, Event.SDL_LoadFile fullPath,
          Event.SDL_Log "Failed to load compute shader from disk! file: %s    error: %s"]
        createInfo := createInfo }
    | some code =>
      -- Make a copy of the create data, then overwrite the parts we need
      let newCreateInfo := createInfo
      let newCreateInfo := { newCreateInfo with code := code }
      let newCreateInfo := { newCreateInfo with code_size := code.length }
      let newCreateInfo := { newCreateInfo with entrypoint := entrypoint }
      let newCreateInfo := { newCreateInfo with format := format }
      match w.createGPUComputePipeline newCreateInfo with
      | none =>
        { pipeline := none
          events := [Event.SDL_GetGPUShaderFormats, Event.SDL_LoadFile fullPath,
            Event.SDL_CreateGPUComputePipeline newCreateInfo,
            Event.SDL_LogError "Failed to create compute pipeline! error: %s",
            Event.SDL_free]
          createInfo := createInfo }
      | some pipeline =>
        { pipeline := some pipeline
          events := [Event.SDL_GetGPUShaderFormats, Event.SDL_LoadFile fullPath,
            Event.SDL_CreateGPUComputePipeline newCreateInfo, Event.SDL_free]
          createInfo := createInfo }
  else
    { pipeline := none
      events := [Event.SDL_GetGPUShaderFormats,
        Event.SDL_LogError "Unrecognized backend shader format!"]
      createInfo := createInfo }

/-- The call `SDL_snprintf(fullPath, sizeof(fullPath), "%sassets/%s", basePath,
imageFileName.c_str())` with `char fullPath[256]`. -/
def imageFullPath (basePath : Option (List Char)) (imageFileName : List Char) : List Char :=
  (printString basePath ++ "assets/".toList ++ c_str imageFileName).take 255

/-- The function `LoadImage` (common.cpp:149-175): the surface it returns (`none`
for `NULL`) and the external calls it made. When the failed `SDL_assert` does
not return, the trace ends there and nothing is returned. -/
def LoadImage (w : World) (basePath : Option (List Char)) (imageFileName : List Char)
    (desiredChannels : Int) : Option SDL_Surface × List Event :=
  let fullPath := imageFullPath basePath imageFileName
  match w.loadBMP fullPath with
  | none =>
    (none, [Event.SDL_LoadBMP fullPath, Event.SDL_LogError "Failed to load BMP error: %s"])
  | some result =>
    if desiredChannels = 4 then
      let format := SDL_PIXELFORMAT_ABGR8888
      if result.format ≠ format then
        let next := w.convertSurface result format
        (next, [Event.SDL_LoadBMP fullPath, Event.SDL_ConvertSurface result format,
          Event.SDL_DestroySurface result])
      else
        (some result, [Event.SDL_LoadBMP fullPath])
    else if w.assertReturns then
      (none, [Event.SDL_LoadBMP fullPath, Event.SDL_assert "Unexpected desiredChannels",
        Event.SDL_DestroySurface result])
    else
      (none, [Event.SDL_LoadBMP fullPath, Event.SDL_assert "Unexpected desiredChannels"])

/-- The function `GeneralInit` (common.cpp:5-28): the C return value and the
external calls made. -/
def GeneralInit (w : World) : Int × List Event :=
  if !w.createGPUDevice then
    (-1, [Event.SDL_CreateGPUDevice,
      Event.SDL_LogError "CreateGPUDevice failed with error: %s"])
  else if !w.createWindow then
    (-1, [Event.SDL_CreateGPUDevice, Event.SDL_CreateWindow,
      Event.SDL_LogError "CreaWindow failed with error: %s"])
  else if !w.claimWindow then
    (-1, [Event.SDL_CreateGPUDevice, Event.SDL_CreateWindow,
      Event.SDL_ClaimWindowForGPUDevice,
      Event.SDL_LogError "ClaimWindowForGPUDevice failed with error: %s"])
  else
    (0, [Event.SDL_CreateGPUDevice, Event.SDL_CreateWindow,
      Event.SDL_ClaimWindowForGPUDevice])

/-! ## Staged upload, byte level (`main.cpp:100-187`)

Memory is a list of bytes (numbers below 256). A `float` is its IEEE-754
binary32 bit pattern and is stored, like a `uint16_t`, least significant byte
first. -/

/-- The struct `PositionVertex` of `common.hpp`; each `float` field is held as
its 32-bit pattern. -/
structure PositionVertex where
  x : Nat
  y : Nat
  z : Nat
  deriving DecidableEq, Repr

/-- The value `sizeof(float)`. -/
def sizeof_float : Nat := 4

/-- The value `sizeof(PositionVertex)`: three floats, no padding. -/
def sizeof_PositionVertex : Nat := 3 * sizeof_float

/-- The value `sizeof(uint16_t)`. -/
def sizeof_uint16_t : Nat := 2

/-- The four bytes of a 32-bit word, least significant first. -/
def bytesOfFloat (bits : Nat) : List Nat :=
  [bits % 256, bits / 256 % 256, bits / 65536 % 256, bits / 16777216 % 256]

/-- The two bytes of a 16-bit value, least significant first. -/
def bytesOfUint16 (v : Nat) : List Nat :=
  [v % 256, v / 256 % 256]

/-- The twelve bytes of a `PositionVertex`: x, then y, then z. -/
def bytesOfPositionVertex (v : PositionVertex) : List Nat :=
  bytesOfFloat v.x ++ bytesOfFloat v.y ++ bytesOfFloat v.z

/-- A store of `bytes` at byte `offset` of a memory region; bytes that would
fall past the end of the region are not stored. -/
def storeBytes (mem : List Nat) (offset : Nat) (bytes : List Nat) : List Nat :=
  (mem.take offset ++ bytes ++ mem.drop (offset + bytes.length)).take mem.length

/-- The `size` bytes of a memory region from byte `offset` on. -/
def loadBytes (mem : List Nat) (offset size : Nat) : List Nat :=
  (mem.drop offset).take size

/-- A fresh buffer of `size` bytes with the contents the world puts there. -/
def freshBuffer (size : Nat) (init : Nat → Nat) : List Nat :=
  (List.range size).map (fun i => init i % 256)

/-- The effect of `SDL_UploadToGPUBuffer` once the copy pass has run: `size`
bytes from `transferOffset` of the transfer buffer land at `bufferOffset` of
the buffer. -/
def SDL_UploadToGPUBuffer (transferBuffer : List Nat) (transferOffset : Nat)
    (buffer : List Nat) (bufferOffset size : Nat) : List Nat :=
  storeBytes buffer bufferOffset (loadBytes transferBuffer transferOffset size)

/-- A byte range `[offset, offset + size)`. -/
structure Region where
  offset : Nat
  size : Nat
  deriving DecidableEq, Repr

/-- Whether a byte offset lies in a region. -/
def Region.Mem (r : Region) (i : Nat) : Prop :=
  r.offset ≤ i ∧ i < r.offset + r.size

/-- What the staged upload leaves behind. -/
structure UploadResult where
  /-- Contents of the global `vertexBuffer`. -/
  vertexBuffer : List Nat
  /-- Contents of the global `indexBuffer`. -/
  indexBuffer : List Nat
  /-- Contents of the transfer buffer when it is unmapped. -/
  transferBuffer : List Nat
  /-- The transfer-buffer range the first upload reads. -/
  vertexSource : Region
  /-- The transfer-buffer range the second upload reads. -/
  indexSource : Region
  deriving DecidableEq, Repr

/-- The staged upload of `Init` (main.cpp:100-187) for the vertex values
`v0 .. v3` stored to `transferData[0 .. 3]` and the index values `i0 .. i5`
stored to `indexData[0 .. 5]`. -/
def Init_stagedUpload (w : World) (v0 v1 v2 v3 : PositionVertex)
    (i0 i1 i2 i3 i4 i5 : Nat) : UploadResult :=
  let vertexBuffer := freshBuffer (sizeof_PositionVertex * 4) w.vertexBufferInit
  let indexBuffer := freshBuffer (sizeof_uint16_t * 6) w.indexBufferInit
  let transferBuffer :=
    freshBuffer ((sizeof_PositionVertex * 4) + (sizeof_uint16_t * 6)) w.transferBufferInit
  -- PositionVertex* transferData = mapped transfer buffer
  let t := storeBytes transferBuffer (sizeof_PositionVertex * 0) (bytesOfPositionVertex v0)
  let t := storeBytes t (sizeof_PositionVertex * 1) (bytesOfPositionVertex v1)
  let t := storeBytes t (sizeof_PositionVertex * 2) (bytesOfPositionVertex v2)
  let t := storeBytes t (sizeof_PositionVertex * 3) (bytesOfPositionVertex v3)
  -- Uint16* indexData = (Uint16*) &transferData[4]
  let indexData := sizeof_PositionVertex * 4
  let t := storeBytes t (indexData + sizeof_uint16_t * 0) (bytesOfUint16 i0)
  let t := storeBytes t (indexData + sizeof_uint16_t * 1) (bytesOfUint16 i1)
  let t := storeBytes t (indexData + sizeof_uint16_t * 2) (bytesOfUint16 i2)
  let t := storeBytes t (indexData + sizeof_uint16_t * 3) (bytesOfUint16 i3)
  let t := storeBytes t (indexData + sizeof_uint16_t * 4) (bytesOfUint16 i4)
  let t := storeBytes t (indexData + sizeof_uint16_t * 5) (bytesOfUint16 i5)
  let vertexSource : Region := { offset := 0, size := sizeof_PositionVertex * 4 }
  let indexSource : Region :=
    { offset := sizeof_PositionVertex * 4, size := sizeof_uint16_t * 6 }
  { vertexBuffer :=
      SDL_UploadToGPUBuffer t vertexSource.offset vertexBuffer 0 vertexSource.size
    indexBuffer :=
      SDL_UploadToGPUBuffer t indexSource.offset indexBuffer 0 indexSource.size
    transferBuffer := t
    vertexSource := vertexSource
    indexSource := indexSource }

/-- The bit pattern of the float literal `0.5f`. -/
def float_half : Nat := 0x3F000000

/-- The bit pattern of the float literal `-0.5f`. -/
def float_neg_half : Nat := 0xBF000000

/-- The bit pattern of the float `0`. -/
def float_zero : Nat := 0

/-! ## Startup (`main.cpp`) -/

/-- What `Init` leaves behind: its return value, the external calls it made,
and the globals `pipeline`, `vertexBuffer` and `indexBuffer` (with the transfer
buffer) when it reached them. -/
structure InitOutcome where
  result : Int
  events : List Event
  pipeline : Option Nat
  upload : Option UploadResult

/-- The external calls of main.cpp:100-187, in order. -/
def Init_uploadEvents : List Event :=
  [ Event.SDL_CreateGPUBuffer (sizeof_PositionVertex * 4),
    Event.SDL_CreateGPUBuffer (sizeof_uint16_t * 6),
    Event.SDL_CreateGPUTransferBuffer ((sizeof_PositionVertex * 4) + (sizeof_uint16_t * 6)),
    Event.SDL_MapGPUTransferBuffer,
    Event.SDL_UnmapGPUTransferBuffer,
    Event.SDL_AcquireGPUCommandBuffer,
    Event.SDL_BeginGPUCopyPass,
    Event.SDL_UploadToGPUBuffer 0 0 (sizeof_PositionVertex * 4),
    Event.SDL_UploadToGPUBuffer (sizeof_PositionVertex * 4) 0 (sizeof_uint16_t * 6),
    Event.SDL_EndGPUCopyPass,
    Event.SDL_SubmitGPUCommandBuffer,
    Event.SDL_ReleaseGPUTransferBuffer ]

/-- The function `Init` (main.cpp:29-190); `basePath` is the static `basePath`
of common.cpp. -/
def Init (w : World) (basePath : Option (List Char)) : InitOutcome :=
  let general := GeneralInit w
  if general.1 < 0 then
    { result := general.1, events := general.2, pipeline := none, upload := none }
  else
    let vertex := LoadShader w basePath "position.vert".toList 0 0 0 0
    match vertex.1 with
    | none =>
      { result := -1
        events := general.2 ++ vertex.2 ++ [Event.SDL_Log "Failed to create vertex shader"]
        pipeline := none, upload := none }
    | some vertexShader =>
      let fragment := LoadShader w basePath "solidColor.frag".toList 0 1 0 0
      match fragment.1 with
      | none =>
        { result := -1
          events := general.2 ++ vertex.2 ++ fragment.2 ++
            [Event.SDL_Log "Failed to create fragment shader"]
          pipeline := none, upload := none }
      | some fragmentShader =>
        let pipeline := w.createGPUGraphicsPipeline vertexShader fragmentShader
        let pipelineEvents :=
          [Event.SDL_GetGPUSwapchainTextureFormat,
            Event.SDL_CreateGPUGraphicsPipeline vertexShader fragmentShader] ++
          (if pipeline.isNone then
            [Event.SDL_LogError "Failed creating graphics pipeline error: %s"]
          else [])
        let releaseEvents :=
          [Event.SDL_ReleaseGPUShader vertexShader, Event.SDL_ReleaseGPUShader fragmentShader]
        { result := 0
          events := general.2 ++ vertex.2 ++ fragment.2 ++ pipelineEvents ++
            releaseEvents ++ Init_uploadEvents
          pipeline := pipeline
          upload := some (Init_stagedUpload w
            { x := float_neg_half, y := float_neg_half, z := float_zero }
            { x := float_half, y := float_neg_half, z := float_zero }
            { x := float_half, y := float_half, z := float_zero }
            { x := float_neg_half, y := float_half, z := float_zero }
            0 1 2 0 2 3) }

/-- What `main` does up to the first iteration of its render loop. -/
structure MainOutcome where
  /-- The value `main` returned before the loop, if it did. -/
  exitCode : Option Int
  /-- The value `Init` returned, if it was called. -/
  initResult : Option Int
  events : List Event
  /-- Whether the body of `while (running)` was entered. -/
  enteredRenderLoop : Bool

/-- The function `main` (main.cpp:192-202) up to the first iteration of the
render loop; `running` is `true` when the loop condition is first tested. -/
def main (w : World) : MainOutcome :=
  if !w.sdlInit then
    { exitCode := some (-1), initResult := none
      events := [Event.SDL_Init, Event.SDL_LogError "Failed to init video error: %s"]
      enteredRenderLoop := false }
  else
    -- InitAssetLoader(); Init(&context); the value of Init is discarded
    let init := Init w w.getBasePath
    let running := true
    { exitCode := none, initResult := some init.result
      events := [Event.SDL_Init, Event.SDL_GetBasePath] ++ init.events ++
        (if running then [Event.renderLoopIteration] else [])
      enteredRenderLoop := running }

/-- A world in which every call succeeds, with the given graphics-pipeline
outcome: one file content for every path, shader handles 1 (vertex stage) and
2 (fragment stage). -/
def worldWith (createGPUDevice : Bool) (pipeline : Option Nat) : World :=
  { sdlInit := true
    getBasePath := some "/app/".toList
    createGPUDevice := createGPUDevice
    createWindow := true
    claimWindow := true
    shaderFormats := SDL_GPU_SHADERFORMAT_SPIRV
    loadFile := fun _ => some [3, 2, 35, 7]
    createGPUShader := fun info =>
      match info.stage with
      | SDL_GPUShaderStage.SDL_GPU_SHADERSTAGE_VERTEX => some 1
      | SDL_GPUShaderStage.SDL_GPU_SHADERSTAGE_FRAGMENT => some 2
    createGPUGraphicsPipeline := fun _ _ => pipeline
    vertexBufferInit := fun _ => 0
    indexBufferInit := fun _ => 0
    transferBufferInit := fun _ => 0
    createGPUComputePipeline := fun info => if info.threadcount_x = 0 then none else some 3
    loadBMP := fun _ => none
    convertSurface := fun surface format => some { surface with format := format }
    assertReturns := true }

/-- The world `worldWith true none` with a given outcome of `SDL_LoadBMP` for
every path. -/
def imageWorld (bmp : Option SDL_Surface) : World :=
  { worldWith true none with loadBMP := fun _ => bmp }

/-- A 1x1 bitmap in the format `SDL_PIXELFORMAT_ABGR8888`. -/
def onePixel : SDL_Surface :=
  { format := SDL_PIXELFORMAT_ABGR8888, w := 1, h := 1, pixels := [255, 0, 0, 255] }

/-- A compute-pipeline descriptor a caller might pass: its own code bytes,
entry point and format, and non-zero counts. -/
def sampleComputeInfo : SDL_GPUComputePipelineCreateInfo :=
  { code_size := 2, code := [9, 9], entrypoint := "cs_main".toList, format := 4
    num_samplers := 1, num_readonly_storage_textures := 2
    num_readonly_storage_buffers := 3, num_readwrite_storage_textures := 4
    num_readwrite_storage_buffers := 5, num_uniform_buffers := 6
    threadcount_x := 8, threadcount_y := 8, threadcount_z := 1, props := 0 }

/-! ## Theorems: matrix product -/

/-- C1: over the reals, `Matrix4x4_Multiply` is associative: the products
`(A * B) * C` and `A * (B * C)` agree in all sixteen entries. -/
theorem Matrix4x4_Multiply_assoc (A B C : Matrix4x4 ℝ) :
    Matrix4x4_Multiply (Matrix4x4_Multiply A B) C
      = Matrix4x4_Multiply A (Matrix4x4_Multiply B C) := by
  simp only [Matrix4x4_Multiply, Matrix4x4.mk.injEq]
  refine ⟨?_, ?_, ?_, ?_, ?_, ?_, ?_, ?_, ?_, ?_, ?_, ?_, ?_, ?_, ?_, ?_⟩ <;> ring

/-- C2: over the reals, the matrix with 1 on the diagonal and 0 elsewhere is the
value of `Matrix4x4_CreateTranslation 0 0 0`, and it is a left and a right
identity of `Matrix4x4_Multiply` in all sixteen entries. -/
theorem Matrix4x4_Multiply_identity (M : Matrix4x4 ℝ) :
    (Matrix4x4_CreateTranslation (0 : ℝ) 0 0 =
        { m11 := 1, m12 := 0, m13 := 0, m14 := 0
          m21 := 0, m22 := 1, m23 := 0, m24 := 0
          m31 := 0, m32 := 0, m33 := 1, m34 := 0
          m41 := 0, m42 := 0, m43 := 0, m44 := 1 }) ∧
    Matrix4x4_Multiply (Matrix4x4_CreateTranslation 0 0 0) M = M ∧
    Matrix4x4_Multiply M (Matrix4x4_CreateTranslation 0 0 0) = M := by
  refine ⟨rfl, ?_, ?_⟩
  · cases M
    simp [Matrix4x4_Multiply, Matrix4x4_CreateTranslation]
  · cases M
    simp [Matrix4x4_Multiply, Matrix4x4_CreateTranslation]

/-! ## Theorems: vectors -/

section VectorLemmas

variable {α : Type} [Field α]

theorem Vector3_Cross_eq_textbookCross (a b : Vector3 α) :
    Vector3_Cross a b = textbookCross a b := by
  simp only [Vector3_Cross, textbookCross, Vector3.mk.injEq]
  refine ⟨?_, ?_, ?_⟩ <;> ring

theorem Vector3_Dot_comm (a b : Vector3 α) : Vector3_Dot a b = Vector3_Dot b a := by
  simp only [Vector3_Dot]; ring

theorem Vector3_Dot_Cross_left (a b : Vector3 α) :
    Vector3_Dot (Vector3_Cross a b) a = 0 := by
  simp only [Vector3_Dot, Vector3_Cross]; ring

theorem Vector3_Dot_Cross_right (a b : Vector3 α) :
    Vector3_Dot (Vector3_Cross a b) b = 0 := by
  simp only [Vector3_Dot, Vector3_Cross]; ring

/-- Lagrange identity for the code's cross product. -/
theorem Vector3_Dot_Cross_self (a b : Vector3 α) :
    Vector3_Dot (Vector3_Cross a b) (Vector3_Cross a b)
      = Vector3_Dot a a * Vector3_Dot b b - Vector3_Dot a b * Vector3_Dot a b := by
  simp only [Vector3_Dot, Vector3_Cross]; ring

theorem Vector3_Dot_Normalize_left (sqrtf : α → α) (v u : Vector3 α) :
    Vector3_Dot (Vector3_Normalize sqrtf v) u
      = Vector3_Dot v u / sqrtf (Vector3_Dot v v) := by
  simp only [Vector3_Dot, Vector3_Normalize]; ring

theorem Vector3_Dot_Normalize_self (sqrtf : α → α) (v : Vector3 α)
    (h : sqrtf (Vector3_Dot v v) * sqrtf (Vector3_Dot v v) = Vector3_Dot v v)
    (hv : Vector3_Dot v v ≠ 0) :
    Vector3_Dot (Vector3_Normalize sqrtf v) (Vector3_Normalize sqrtf v) = 1 := by
  have hm : sqrtf (Vector3_Dot v v) ≠ 0 := by
    intro h0; rw [h0] at h; simp at h; exact hv h.symm
  have e : Vector3_Dot (Vector3_Normalize sqrtf v) (Vector3_Normalize sqrtf v)
      = Vector3_Dot v v / (sqrtf (Vector3_Dot v v) * sqrtf (Vector3_Dot v v)) := by
    simp only [Vector3_Dot, Vector3_Normalize]; field_simp
  rw [e, h, div_self hv]

/-- Triple-product expansion for the code's cross product, per component. -/
theorem textbookCross_Cross (a b : Vector3 α) :
    textbookCross b (Vector3_Cross a b)
      = { x := Vector3_Dot b b * a.x - Vector3_Dot b a * b.x
          y := Vector3_Dot b b * a.y - Vector3_Dot b a * b.y
          z := Vector3_Dot b b * a.z - Vector3_Dot b a * b.z } := by
  simp only [textbookCross, Vector3_Cross, Vector3_Dot, Vector3.mk.injEq]
  refine ⟨?_, ?_, ?_⟩ <;> ring

/-- The determinant of the 3x3 block is the triple product of its columns. -/
theorem Matrix4x4.det3_eq (M : Matrix4x4 α) :
    M.det3 = Vector3_Dot (textbookCross M.column1 M.column2) M.column3 := by
  simp only [Matrix4x4.det3, Vector3_Dot, textbookCross, Matrix4x4.column1,
    Matrix4x4.column2, Matrix4x4.column3]
  ring

/-- A vector whose cross product with `d` vanishes is a multiple of `d`. -/
theorem parallel_of_Cross_eq_zero (u d : Vector3 α) (hd : Vector3_Dot d d ≠ 0)
    (h : Vector3_Cross u d = ⟨0, 0, 0⟩) :
    u = Vector3.scale (Vector3_Dot u d / Vector3_Dot d d) d := by
  simp only [Vector3_Cross, Vector3.mk.injEq] at h
  obtain ⟨hx, hy, hz⟩ := h
  cases u with
  | mk ux uy uz =>
    cases d with
    | mk dx dy dz =>
      simp only [Vector3_Dot] at hd
      simp only [Vector3.scale, Vector3_Dot, Vector3.mk.injEq] at hx hy hz ⊢
      refine ⟨?_, ?_, ?_⟩
      · field_simp
        linear_combination dy * hz - dz * hy
      · field_simp
        linear_combination dz * hx - dx * hz
      · field_simp
        linear_combination dx * hy - dy * hx

/-- Crossing with a normalised vector scales the cross product. -/
theorem Vector3_Cross_Normalize_right (sqrtf : α → α) (u d : Vector3 α) :
    Vector3_Cross u (Vector3_Normalize sqrtf d)
      = Vector3.scale (1 / sqrtf (Vector3_Dot d d)) (Vector3_Cross u d) := by
  simp only [Vector3_Cross, Vector3_Normalize, Vector3.scale, Vector3_Dot, Vector3.mk.injEq]
  refine ⟨?_, ?_, ?_⟩ <;> ring

end VectorLemmas

theorem Vector3_Dot_self_nonneg (v : Vector3 ℝ) : 0 ≤ Vector3_Dot v v := by
  simp only [Vector3_Dot]
  linarith [mul_self_nonneg v.x, mul_self_nonneg v.y, mul_self_nonneg v.z]

theorem Vector3_Dot_self_pos (v : Vector3 ℝ) (hv : v ≠ ⟨0, 0, 0⟩) :
    0 < Vector3_Dot v v := by
  rcases (Vector3_Dot_self_nonneg v).lt_or_eq with h | h
  · exact h
  · exfalso
    apply hv
    simp only [Vector3_Dot] at h
    have hx : v.x = 0 := by
      nlinarith [mul_self_nonneg v.x, mul_self_nonneg v.y, mul_self_nonneg v.z]
    have hy : v.y = 0 := by
      nlinarith [mul_self_nonneg v.x, mul_self_nonneg v.y, mul_self_nonneg v.z]
    have hz : v.z = 0 := by
      nlinarith [mul_self_nonneg v.x, mul_self_nonneg v.y, mul_self_nonneg v.z]
    cases v
    simp only [Vector3.mk.injEq]
    exact ⟨hx, hy, hz⟩

theorem Real_sqrt_Dot_self (v : Vector3 ℝ) :
    Real.sqrt (Vector3_Dot v v) * Real.sqrt (Vector3_Dot v v) = Vector3_Dot v v :=
  Real.mul_self_sqrt (Vector3_Dot_self_nonneg v)

theorem Vector3_Dot_Normalize_real (v : Vector3 ℝ) (hv : v ≠ ⟨0, 0, 0⟩) :
    Vector3_Dot (Vector3_Normalize Real.sqrt v) (Vector3_Normalize Real.sqrt v) = 1 :=
  Vector3_Dot_Normalize_self Real.sqrt v (Real_sqrt_Dot_self v)
    (Vector3_Dot_self_pos v hv).ne.symm

/-- C3 (as stated, refuted): at a = (1, 0, 0), b = (0, 0, 1) the second component
of `Vector3_Cross a b` is -1, which is the textbook second component
`a.z*b.x - a.x*b.z = -1` itself and not its negation 1. -/
theorem Vector3_Cross_second_component_not_negated :
    ¬ (∀ a b : Vector3 ℝ,
        (Vector3_Cross a b).y = -(textbookCross a b).y ∧
        (Vector3_Cross a b).x = (textbookCross a b).x ∧
        (Vector3_Cross a b).z = (textbookCross a b).z) := by
  intro h
  have h1 := (h ⟨1, 0, 0⟩ ⟨0, 0, 1⟩).1
  norm_num [Vector3_Cross, textbookCross] at h1

/-- C3 (amended): over the reals, `Vector3_Cross a b` equals the textbook cross
product in all three components: first `a.y*b.z - a.z*b.y`, second
`a.z*b.x - a.x*b.z` (no sign flip), third `a.x*b.y - a.y*b.x`. -/
theorem Vector3_Cross_is_textbook (a b : Vector3 ℝ) :
    (Vector3_Cross a b).x = a.y * b.z - a.z * b.y ∧
    (Vector3_Cross a b).y = a.z * b.x - a.x * b.z ∧
    (Vector3_Cross a b).z = a.x * b.y - a.y * b.x ∧
    Vector3_Cross a b = textbookCross a b := by
  refine ⟨?_, ?_, ?_, Vector3_Cross_eq_textbookCross a b⟩ <;>
    simp only [Vector3_Cross] <;> ring

/-- C4: over the reals, `Vector3_Cross a b` is the component-wise negation of
`Vector3_Cross b a`. -/
theorem Vector3_Cross_anticomm (a b : Vector3 ℝ) :
    Vector3_Cross a b = (Vector3_Cross b a).neg := by
  simp only [Vector3_Cross, Vector3.neg, Vector3.mk.injEq]
  refine ⟨?_, ?_, ?_⟩ <;> ring

/-- C5: over the reals with the real square root, a vector other than
(0, 0, 0) is normalised to unit magnitude:
`Vector3_Dot (Vector3_Normalize v) (Vector3_Normalize v) = 1`. -/
theorem Vector3_Normalize_unit (v : Vector3 ℝ) (hv : v ≠ ⟨0, 0, 0⟩) :
    Vector3_Dot (Vector3_Normalize Real.sqrt v) (Vector3_Normalize Real.sqrt v) = 1 :=
  Vector3_Dot_Normalize_real v hv

/-- Witness of C5 at v = (3, 4, 0). -/
theorem Vector3_Normalize_unit_witness :
    (⟨3, 4, 0⟩ : Vector3 ℝ) ≠ ⟨0, 0, 0⟩ ∧
    Vector3_Dot (Vector3_Normalize Real.sqrt (⟨3, 4, 0⟩ : Vector3 ℝ))
      (Vector3_Normalize Real.sqrt ⟨3, 4, 0⟩) = 1 :=
  ⟨by simp, Vector3_Normalize_unit ⟨3, 4, 0⟩ (by simp)⟩

/-! ## Theorems: look-at and orthographic projection -/

/-- The cross product the look-at basis normalises is not the zero vector. -/
theorem Vector3_Cross_up_ne_zero (eye target up : Vector3 ℝ) (hne : eye ≠ target)
    (hpar : ¬ ∃ k : ℝ, up = Vector3.scale k (Vector3.sub eye target)) :
    Vector3_Cross up (Vector3_Normalize Real.sqrt (Vector3.sub eye target)) ≠ ⟨0, 0, 0⟩ := by
  have hd : Vector3.sub eye target ≠ ⟨0, 0, 0⟩ := by
    intro h
    apply hne
    simp only [Vector3.sub, Vector3.mk.injEq] at h
    cases eye; cases target
    simp only [Vector3.mk.injEq]
    exact ⟨by linarith [h.1], by linarith [h.2.1], by linarith [h.2.2]⟩
  have hpos := Vector3_Dot_self_pos _ hd
  have hm : Real.sqrt (Vector3_Dot (Vector3.sub eye target) (Vector3.sub eye target)) ≠ 0 :=
    (Real.sqrt_pos.mpr hpos).ne.symm
  intro h
  rw [Vector3_Cross_Normalize_right] at h
  apply hpar
  refine ⟨_, parallel_of_Cross_eq_zero up _ hpos.ne.symm ?_⟩
  simp only [Vector3.scale, Vector3.mk.injEq] at h
  obtain ⟨hx, hy, hz⟩ := h
  have hinv : (1 : ℝ) /
      Real.sqrt (Vector3_Dot (Vector3.sub eye target) (Vector3.sub eye target)) ≠ 0 :=
    one_div_ne_zero hm
  have ex := (mul_eq_zero.mp hx).resolve_left hinv
  have ey := (mul_eq_zero.mp hy).resolve_left hinv
  have ez := (mul_eq_zero.mp hz).resolve_left hinv
  cases hc : Vector3_Cross up (Vector3.sub eye target) with
  | mk cx cy cz =>
    rw [hc] at ex ey ez
    simp only at ex ey ez
    rw [ex, ey, ez]

/-- C6: over the reals, for eye different from target and up not a multiple of
eye - target, the columns B (first), C (second), A (third) of the upper-left
3x3 block of `Matrix4x4_CreateLookAt eye target up` have unit length, are
pairwise orthogonal under `Vector3_Dot`, satisfy textbook `B x C = A`, and the
block has determinant +1. -/
theorem Matrix4x4_CreateLookAt_right_handed_orthonormal (eye target up : Vector3 ℝ)
    (hne : eye ≠ target)
    (hpar : ¬ ∃ k : ℝ, up = Vector3.scale k (Vector3.sub eye target)) :
    Vector3_Dot (Matrix4x4_CreateLookAt Real.sqrt eye target up).column1
        (Matrix4x4_CreateLookAt Real.sqrt eye target up).column1 = 1 ∧
    Vector3_Dot (Matrix4x4_CreateLookAt Real.sqrt eye target up).column2
        (Matrix4x4_CreateLookAt Real.sqrt eye target up).column2 = 1 ∧
    Vector3_Dot (Matrix4x4_CreateLookAt Real.sqrt eye target up).column3
        (Matrix4x4_CreateLookAt Real.sqrt eye target up).column3 = 1 ∧
    Vector3_Dot (Matrix4x4_CreateLookAt Real.sqrt eye target up).column1
        (Matrix4x4_CreateLookAt Real.sqrt eye target up).column2 = 0 ∧
    Vector3_Dot (Matrix4x4_CreateLookAt Real.sqrt eye target up).column1
        (Matrix4x4_CreateLookAt Real.sqrt eye target up).column3 = 0 ∧
    Vector3_Dot (Matrix4x4_CreateLookAt Real.sqrt eye target up).column2
        (Matrix4x4_CreateLookAt Real.sqrt eye target up).column3 = 0 ∧
    textbookCross (Matrix4x4_CreateLookAt Real.sqrt eye target up).column1
        (Matrix4x4_CreateLookAt Real.sqrt eye target up).column2
      = (Matrix4x4_CreateLookAt Real.sqrt eye target up).column3 ∧
    (Matrix4x4_CreateLookAt Real.sqrt eye target up).det3 = 1 := by
  have hd : Vector3.sub eye target ≠ ⟨0, 0, 0⟩ := by
    intro h
    apply hne
    simp only [Vector3.sub, Vector3.mk.injEq] at h
    cases eye; cases target
    simp only [Vector3.mk.injEq]
    exact ⟨by linarith [h.1], by linarith [h.2.1], by linarith [h.2.2]⟩
  have hw := Vector3_Cross_up_ne_zero eye target up hne hpar
  rw [Matrix4x4.det3_eq]
  -- name the three basis vectors of the source
  have e1 : (Matrix4x4_CreateLookAt Real.sqrt eye target up).column1
      = Vector3_Normalize Real.sqrt
          (Vector3_Cross up (Vector3_Normalize Real.sqrt (Vector3.sub eye target))) := rfl
  have e3 : (Matrix4x4_CreateLookAt Real.sqrt eye target up).column3
      = Vector3_Normalize Real.sqrt (Vector3.sub eye target) := rfl
  have e2 : (Matrix4x4_CreateLookAt Real.sqrt eye target up).column2
      = Vector3_Cross (Vector3_Normalize Real.sqrt (Vector3.sub eye target))
          (Vector3_Normalize Real.sqrt
            (Vector3_Cross up (Vector3_Normalize Real.sqrt (Vector3.sub eye target)))) := rfl
  rw [e1, e2, e3]
  generalize hA : Vector3_Normalize Real.sqrt (Vector3.sub eye target) = A at hw ⊢
  have hAA : Vector3_Dot A A = 1 := by
    rw [← hA]; exact Vector3_Dot_Normalize_real _ hd
  have hBB : Vector3_Dot (Vector3_Normalize Real.sqrt (Vector3_Cross up A))
      (Vector3_Normalize Real.sqrt (Vector3_Cross up A)) = 1 :=
    Vector3_Dot_Normalize_real _ hw
  have hBA : Vector3_Dot (Vector3_Normalize Real.sqrt (Vector3_Cross up A)) A = 0 := by
    rw [Vector3_Dot_Normalize_left, Vector3_Dot_Cross_right, zero_div]
  generalize Vector3_Normalize Real.sqrt (Vector3_Cross up A) = B at hBB hBA ⊢
  have hAB : Vector3_Dot A B = 0 := by rw [Vector3_Dot_comm]; exact hBA
  have hcross : textbookCross B (Vector3_Cross A B) = A := by
    rw [textbookCross_Cross, hBB, hBA]
    cases A
    simp
  refine ⟨hBB, ?_, hAA, ?_, hBA, ?_, hcross, ?_⟩
  · rw [Vector3_Dot_Cross_self, hAA, hBB, hAB]; norm_num
  · rw [Vector3_Dot_comm]; exact Vector3_Dot_Cross_right A B
  · exact Vector3_Dot_Cross_left A B
  · rw [hcross]; exact hAA

/-- Witness of C6 at eye = (0, 0, 1), target = (0, 0, 0), up = (0, 1, 0). -/
theorem Matrix4x4_CreateLookAt_right_handed_orthonormal_witness :
    ((⟨0, 0, 1⟩ : Vector3 ℝ) ≠ ⟨0, 0, 0⟩ ∧
      ¬ ∃ k : ℝ, (⟨0, 1, 0⟩ : Vector3 ℝ) = Vector3.scale k (Vector3.sub ⟨0, 0, 1⟩ ⟨0, 0, 0⟩)) ∧
    (Matrix4x4_CreateLookAt Real.sqrt (⟨0, 0, 1⟩ : Vector3 ℝ) ⟨0, 0, 0⟩ ⟨0, 1, 0⟩).det3 = 1 :=
  ⟨⟨by simp, by simp [Vector3.scale, Vector3.sub]⟩,
    (Matrix4x4_CreateLookAt_right_handed_orthonormal ⟨0, 0, 1⟩ ⟨0, 0, 0⟩ ⟨0, 1, 0⟩
      (by simp) (by simp [Vector3.scale, Vector3.sub])).2.2.2.2.2.2.2⟩

/-- The orthographic matrix sends the corners `(left, bottom, -zNear)` and
`(right, top, -zFar)` of the view box to the corners `(-1, -1, 0)` and
`(1, 1, 1)` of the canonical clip volume. -/
theorem Matrix4x4_CreateOrthographicOffCenter_corners
    (left right bottom top zNearPlane zFarPlane : ℝ)
    (hx : left ≠ right) (hy : bottom ≠ top) (hz : zNearPlane ≠ zFarPlane) :
    transformPoint ⟨left, bottom, -zNearPlane⟩
        (Matrix4x4_CreateOrthographicOffCenter left right bottom top zNearPlane zFarPlane)
      = ⟨-1, -1, 0, 1⟩ ∧
    transformPoint ⟨right, top, -zFarPlane⟩
        (Matrix4x4_CreateOrthographicOffCenter left right bottom top zNearPlane zFarPlane)
      = ⟨1, 1, 1, 1⟩ := by
  have h1 : right - left ≠ 0 := sub_ne_zero.mpr (Ne.symm hx)
  have h2 : left - right ≠ 0 := sub_ne_zero.mpr hx
  have h3 : top - bottom ≠ 0 := sub_ne_zero.mpr (Ne.symm hy)
  have h4 : bottom - top ≠ 0 := sub_ne_zero.mpr hy
  have h5 : zNearPlane - zFarPlane ≠ 0 := sub_ne_zero.mpr hz
  simp only [transformPoint, Matrix4x4_CreateOrthographicOffCenter, Vector4.mk.injEq]
  refine ⟨⟨?_, ?_, ?_, ?_⟩, ⟨?_, ?_, ?_, ?_⟩⟩ <;> field_simp <;> ring

/-- C7 (as stated, refuted): `Matrix4x4_CreateOrthographicOffCenter (-1) 1 (-1) 1 0 1`
does not send (0, 0, 0) to the centre (0, 0, 1/2) of the canonical clip volume,
and does not send (1, 1, 1) to one of its corners. Nor is the image of
(0, 0, 0) the centre of the box with depth in [-1, 0], which is where the
matrix sends the points with x and y in [-1, 1] and z in [0, 1]. -/
theorem Matrix4x4_CreateOrthographicOffCenter_not_centre_corner :
    transformPoint (⟨0, 0, 0⟩ : Vector3 ℝ)
        (Matrix4x4_CreateOrthographicOffCenter (-1) 1 (-1) 1 0 1)
      ≠ canonicalClipVolume.centre ∧
    ¬ canonicalClipVolume.IsCorner
        (transformPoint (⟨1, 1, 1⟩ : Vector3 ℝ)
          (Matrix4x4_CreateOrthographicOffCenter (-1) 1 (-1) 1 0 1)) ∧
    transformPoint (⟨0, 0, 0⟩ : Vector3 ℝ)
        (Matrix4x4_CreateOrthographicOffCenter (-1) 1 (-1) 1 0 1)
      ≠ Box.centre
          { xMin := -1, xMax := 1, yMin := -1, yMax := 1, zMin := -1, zMax := 0 } := by
  refine ⟨?_, ?_, ?_⟩
  · intro h
    have hz := congrArg Vector4.z h
    norm_num [transformPoint, Matrix4x4_CreateOrthographicOffCenter, Box.centre,
      canonicalClipVolume] at hz
  · intro h
    have hz := h.2.2.1
    norm_num [transformPoint, Matrix4x4_CreateOrthographicOffCenter,
      canonicalClipVolume] at hz
  · intro h
    have hz := congrArg Vector4.z h
    norm_num [transformPoint, Matrix4x4_CreateOrthographicOffCenter, Box.centre] at hz

/-- C7 (amended): `Matrix4x4_CreateOrthographicOffCenter (-1) 1 (-1) 1 0 1` sends
(0, 0, 0) to (0, 0, 0, 1), the centre of the near face (depth 0) of the
canonical clip volume, and (1, 1, 1) to (1, 1, -1, 1), which has depth -1 and
lies outside the volume; the volume's centre (0, 0, 1/2) is the image of
(0, 0, -1/2) and its corner (1, 1, 1) is the image of (1, 1, -1). -/
theorem Matrix4x4_CreateOrthographicOffCenter_unit_images :
    transformPoint (⟨0, 0, 0⟩ : Vector3 ℝ)
        (Matrix4x4_CreateOrthographicOffCenter (-1) 1 (-1) 1 0 1)
      = canonicalClipVolume.nearFaceCentre ∧
    (canonicalClipVolume.nearFaceCentre : Vector4 ℝ) = ⟨0, 0, 0, 1⟩ ∧
    transformPoint (⟨1, 1, 1⟩ : Vector3 ℝ)
        (Matrix4x4_CreateOrthographicOffCenter (-1) 1 (-1) 1 0 1)
      = ⟨1, 1, -1, 1⟩ ∧
    ¬ canonicalClipVolume.Contains (⟨1, 1, -1, 1⟩ : Vector4 ℝ) ∧
    transformPoint (⟨0, 0, -1 / 2⟩ : Vector3 ℝ)
        (Matrix4x4_CreateOrthographicOffCenter (-1) 1 (-1) 1 0 1)
      = canonicalClipVolume.centre ∧
    transformPoint (⟨1, 1, -1⟩ : Vector3 ℝ)
        (Matrix4x4_CreateOrthographicOffCenter (-1) 1 (-1) 1 0 1)
      = ⟨1, 1, 1, 1⟩ ∧
    canonicalClipVolume.IsCorner (⟨1, 1, 1, 1⟩ : Vector4 ℝ) := by
  refine ⟨?_, ?_, ?_, ?_, ?_, ?_, ?_⟩
  · norm_num [transformPoint, Matrix4x4_CreateOrthographicOffCenter, Box.nearFaceCentre,
      canonicalClipVolume]
  · norm_num [Box.nearFaceCentre, canonicalClipVolume]
  · norm_num [transformPoint, Matrix4x4_CreateOrthographicOffCenter]
  · intro h
    have hz := h.2.2.2.2.1
    norm_num [canonicalClipVolume] at hz
  · norm_num [transformPoint, Matrix4x4_CreateOrthographicOffCenter, Box.centre,
      canonicalClipVolume]
  · norm_num [transformPoint, Matrix4x4_CreateOrthographicOffCenter]
  · norm_num [Box.IsCorner, canonicalClipVolume]

/-! ## Theorems: shader stage selection -/

theorem c_str_eq_self (s : List Char) (h : Char.ofNat 0 ∉ s) : c_str s = s := by
  unfold c_str
  rw [List.takeWhile_eq_self_iff]
  intro c hc
  simp only [bne_iff_ne, ne_eq]
  intro h0
  exact h (h0 ▸ hc)

theorem SDL_strstr_isSome_iff (haystack needle : List Char) :
    (SDL_strstr haystack needle).isSome = true ↔ needle <:+: haystack := by
  induction haystack with
  | nil =>
    cases needle with
    | nil => simp [SDL_strstr]
    | cons a l => simp [SDL_strstr]
  | cons c cs ih =>
    rw [SDL_strstr, List.infix_cons_iff]
    by_cases hp : needle.isPrefixOf (c :: cs) = true
    · rw [if_pos hp]
      simp only [Option.isSome_some, true_iff]
      exact Or.inl (List.isPrefixOf_iff_prefix.mp hp)
    · rw [if_neg hp, ih]
      constructor
      · exact Or.inr
      · rintro (h | h)
        · exact absurd (List.isPrefixOf_iff_prefix.mpr h) hp
        · exact h

/-- The stage selected for a name without NUL, in terms of its substrings. -/
theorem LoadShader_stage_eq (fileName : List Char) (hname : Char.ofNat 0 ∉ fileName) :
    LoadShader_stage fileName =
      if ".vert".toList <:+: fileName then
        some SDL_GPUShaderStage.SDL_GPU_SHADERSTAGE_VERTEX
      else if ".frag".toList <:+: fileName then
        some SDL_GPUShaderStage.SDL_GPU_SHADERSTAGE_FRAGMENT
      else none := by
  unfold LoadShader_stage
  rw [c_str_eq_self fileName hname]
  by_cases hv : ".vert".toList <:+: fileName
  · rw [if_pos hv, if_pos ((SDL_strstr_isSome_iff _ _).mpr hv)]
  · rw [if_neg hv, if_neg (fun h => hv ((SDL_strstr_isSome_iff _ _).mp h))]
    by_cases hf : ".frag".toList <:+: fileName
    · rw [if_pos hf, if_pos ((SDL_strstr_isSome_iff _ _).mpr hf)]
    · rw [if_neg hf, if_neg (fun h => hf ((SDL_strstr_isSome_iff _ _).mp h))]

/-- What `LoadShader` does once a stage is selected, the device accepts SPIR-V
and the file loads. -/
theorem LoadShader_of_stage (w : World) (basePath : Option (List Char))
    (fileName : List Char) (sc ubc sbc stc : Nat) (stage : SDL_GPUShaderStage)
    (code : List Nat)
    (hstage : LoadShader_stage fileName = some stage)
    (hfmt : w.shaderFormats &&& SDL_GPU_SHADERFORMAT_SPIRV ≠ 0)
    (hfile : w.loadFile (shaderFullPath basePath fileName) = some code) :
    (LoadShader w basePath fileName sc ubc sbc stc).1 =
      w.createGPUShader
        { code_size := code.length, code := code, entrypoint := "main".toList
          format := SDL_GPU_SHADERFORMAT_SPIRV, stage := stage
          num_samplers := sc, num_storage_textures := stc
          num_storage_buffers := sbc, num_uniform_buffers := ubc } ∧
    Event.SDL_CreateGPUShader
        { code_size := code.length, code := code, entrypoint := "main".toList
          format := SDL_GPU_SHADERFORMAT_SPIRV, stage := stage
          num_samplers := sc, num_storage_textures := stc
          num_storage_buffers := sbc, num_uniform_buffers := ubc }
      ∈ (LoadShader w basePath fileName sc ubc sbc stc).2 := by
  unfold LoadShader
  simp only [hstage, hfmt, ne_eq, not_false_eq_true, if_true, hfile]
  cases hc : w.createGPUShader
      { code_size := code.length, code := code, entrypoint := "main".toList
        format := SDL_GPU_SHADERFORMAT_SPIRV, stage := stage
        num_samplers := sc, num_storage_textures := stc
        num_storage_buffers := sbc, num_uniform_buffers := ubc } <;> simp

/-- C8: for a file name (a string without NUL) and a device that accepts
SPIR-V: a name containing ".vert" selects the vertex stage, otherwise a name
containing ".frag" selects the fragment stage, and the selected stage is the
one in the descriptor handed to `SDL_CreateGPUShader` when the file loads; a
name containing neither makes `LoadShader` return `NULL` with the warning
"Invalid shader stage!" as its only external call: no device query, no file
read, no shader creation. -/
theorem LoadShader_stage_inference (w : World) (basePath : Option (List Char))
    (fileName : List Char)
    (samplerCount uniformBufferCount storageBufferCount storageTextureCount : Nat)
    (hname : Char.ofNat 0 ∉ fileName)
    (hfmt : w.shaderFormats &&& SDL_GPU_SHADERFORMAT_SPIRV ≠ 0) :
    (".vert".toList <:+: fileName →
      LoadShader_stage fileName = some SDL_GPUShaderStage.SDL_GPU_SHADERSTAGE_VERTEX ∧
      ∀ code, w.loadFile (shaderFullPath basePath fileName) = some code →
        Event.SDL_CreateGPUShader
            { code_size := code.length, code := code, entrypoint := "main".toList
              format := SDL_GPU_SHADERFORMAT_SPIRV
              stage := SDL_GPUShaderStage.SDL_GPU_SHADERSTAGE_VERTEX
              num_samplers := samplerCount, num_storage_textures := storageTextureCount
              num_storage_buffers := storageBufferCount
              num_uniform_buffers := uniformBufferCount }
          ∈ (LoadShader w basePath fileName samplerCount uniformBufferCount
              storageBufferCount storageTextureCount).2) ∧
    (¬ ".vert".toList <:+: fileName → ".frag".toList <:+: fileName →
      LoadShader_stage fileName = some SDL_GPUShaderStage.SDL_GPU_SHADERSTAGE_FRAGMENT ∧
      ∀ code, w.loadFile (shaderFullPath basePath fileName) = some code →
        Event.SDL_CreateGPUShader
            { code_size := code.length, code := code, entrypoint := "main".toList
              format := SDL_GPU_SHADERFORMAT_SPIRV
              stage := SDL_GPUShaderStage.SDL_GPU_SHADERSTAGE_FRAGMENT
              num_samplers := samplerCount, num_storage_textures := storageTextureCount
              num_storage_buffers := storageBufferCount
              num_uniform_buffers := uniformBufferCount }
          ∈ (LoadShader w basePath fileName samplerCount uniformBufferCount
              storageBufferCount storageTextureCount).2) ∧
    (¬ ".vert".toList <:+: fileName → ¬ ".frag".toList <:+: fileName →
      LoadShader w basePath fileName samplerCount uniformBufferCount
          storageBufferCount storageTextureCount
        = (none, [Event.SDL_LogWarn "Invalid shader stage!"])) := by
  have hs := LoadShader_stage_eq fileName hname
  refine ⟨?_, ?_, ?_⟩
  · intro hv
    rw [if_pos hv] at hs
    exact ⟨hs, fun code hfile =>
      (LoadShader_of_stage w basePath fileName _ _ _ _ _ code hs hfmt hfile).2⟩
  · intro hv hf
    rw [if_neg hv, if_pos hf] at hs
    exact ⟨hs, fun code hfile =>
      (LoadShader_of_stage w basePath fileName _ _ _ _ _ code hs hfmt hfile).2⟩
  · intro hv hf
    rw [if_neg hv, if_neg hf] at hs
    unfold LoadShader
    rw [hs]

/-- Witness of C8 in a world whose device accepts SPIR-V and where every file
loads: "foo.vert" reaches `SDL_CreateGPUShader` with the vertex stage,
"foo.frag" with the fragment stage, and "foo.comp" returns `NULL` after the
warning alone. -/
theorem LoadShader_stage_inference_witness :
    (Char.ofNat 0 ∉ "foo.comp".toList ∧
      (worldWith true (some 7)).shaderFormats &&& SDL_GPU_SHADERFORMAT_SPIRV ≠ 0) ∧
    LoadShader_stage "foo.vert".toList
      = some SDL_GPUShaderStage.SDL_GPU_SHADERSTAGE_VERTEX ∧
    LoadShader_stage "foo.frag".toList
      = some SDL_GPUShaderStage.SDL_GPU_SHADERSTAGE_FRAGMENT ∧
    LoadShader (worldWith true (some 7)) (some "/app/".toList) "foo.comp".toList 0 0 0 0
      = (none, [Event.SDL_LogWarn "Invalid shader stage!"]) :=
  ⟨⟨by decide, by decide⟩,
    ((LoadShader_stage_inference (worldWith true (some 7)) (some "/app/".toList)
      "foo.vert".toList 0 0 0 0 (by decide) (by decide)).1 (by decide)).1,
    ((LoadShader_stage_inference (worldWith true (some 7)) (some "/app/".toList)
      "foo.frag".toList 0 0 0 0 (by decide) (by decide)).2.1 (by decide) (by decide)).1,
    (LoadShader_stage_inference (worldWith true (some 7)) (some "/app/".toList)
      "foo.comp".toList 0 0 0 0 (by decide) (by decide)).2.2 (by decide) (by decide)⟩

/-! ## Theorems: startup -/

/-- When `GeneralInit` fails or a shader fails to load, `Init` returns a negative
value and makes none of the buffer or upload calls. -/
theorem Init_aborts_before_pipeline (w : World) (basePath : Option (List Char))
    (h : (GeneralInit w).1 < 0 ∨
      (LoadShader w basePath "position.vert".toList 0 0 0 0).1 = none ∨
      (LoadShader w basePath "solidColor.frag".toList 0 1 0 0).1 = none) :
    (Init w basePath).result < 0 ∧ (Init w basePath).upload = none ∧
    (Init w basePath).pipeline = none := by
  unfold Init
  by_cases hg : (GeneralInit w).1 < 0
  · simp only [hg, if_true, and_self]
  · simp only [hg, if_false]
    cases hv : (LoadShader w basePath "position.vert".toList 0 0 0 0).1 with
    | none => simp
    | some vs =>
      cases hf : (LoadShader w basePath "solidColor.frag".toList 0 1 0 0).1 with
      | none => simp
      | some fs =>
        rcases h with h | h | h
        · exact absurd h hg
        · rw [hv] at h; cases h
        · rw [hf] at h; cases h

/-- Once both shaders are loaded, `Init` returns 0 and runs the staged upload
whatever `SDL_CreateGPUGraphicsPipeline` returns. -/
theorem Init_ignores_pipeline_result (w : World) (basePath : Option (List Char))
    (vs fs : Nat) (hg : ¬ (GeneralInit w).1 < 0)
    (hv : (LoadShader w basePath "position.vert".toList 0 0 0 0).1 = some vs)
    (hf : (LoadShader w basePath "solidColor.frag".toList 0 1 0 0).1 = some fs) :
    (Init w basePath).result = 0 ∧ (Init w basePath).upload.isSome = true ∧
    (Init w basePath).pipeline = w.createGPUGraphicsPipeline vs fs := by
  unfold Init
  simp only [hg, if_false, hv, hf, Option.isSome_some, and_self]

/-- Whenever `SDL_Init` succeeds, `main` enters its render loop, whatever `Init`
returned. -/
theorem main_enters_render_loop (w : World) (h : w.sdlInit = true) :
    (main w).enteredRenderLoop = true ∧
    (main w).initResult = some (Init w w.getBasePath).result := by
  unfold main
  simp [h]

/-- C9 (the code at the failing inputs): when `SDL_CreateGPUGraphicsPipeline`
returns `NULL` and every other call succeeds, `Init` logs the error, goes on to
create both buffers and record both uploads, and returns 0; and when
`SDL_CreateGPUDevice` returns `NULL`, `Init` returns -1 but `main` still enters
its render loop. -/
theorem Init_pipeline_failure_not_aborted :
    (Init (worldWith true none) (some "/app/".toList)).result = 0 ∧
    (Init (worldWith true none) (some "/app/".toList)).pipeline = none ∧
    Event.SDL_LogError "Failed creating graphics pipeline error: %s"
      ∈ (Init (worldWith true none) (some "/app/".toList)).events ∧
    Event.SDL_CreateGPUBuffer 48 ∈ (Init (worldWith true none) (some "/app/".toList)).events ∧
    Event.SDL_CreateGPUBuffer 12 ∈ (Init (worldWith true none) (some "/app/".toList)).events ∧
    Event.SDL_UploadToGPUBuffer 0 0 48
      ∈ (Init (worldWith true none) (some "/app/".toList)).events ∧
    Event.SDL_UploadToGPUBuffer 48 0 12
      ∈ (Init (worldWith true none) (some "/app/".toList)).events ∧
    (Init (worldWith true none) (some "/app/".toList)).upload.isSome = true ∧
    (main (worldWith true none)).initResult = some 0 ∧
    (main (worldWith true none)).enteredRenderLoop = true ∧
    (Init (worldWith false none) (some "/app/".toList)).result = -1 ∧
    (main (worldWith false none)).initResult = some (-1) ∧
    (main (worldWith false none)).enteredRenderLoop = true ∧
    (main (worldWith false none)).events =
      [Event.SDL_Init, Event.SDL_GetBasePath, Event.SDL_CreateGPUDevice,
        Event.SDL_LogError "CreateGPUDevice failed with error: %s",
        Event.renderLoopIteration] := by
  refine ⟨?_, ?_, ?_, ?_, ?_, ?_, ?_, ?_, ?_, ?_, ?_, ?_, ?_, ?_⟩ <;> decide

/-! ## Theorems: staged upload -/

theorem freshBuffer_length (size : Nat) (init : Nat → Nat) :
    (freshBuffer size init).length = size := by
  simp [freshBuffer]

theorem storeBytes_step (pre bytes mem0 : List Nat) (off : Nat)
    (hpre : pre.length = off) (hlen : off + bytes.length ≤ mem0.length) :
    storeBytes (pre ++ mem0.drop off) off bytes
      = (pre ++ bytes) ++ mem0.drop (off + bytes.length) := by
  unfold storeBytes
  have h1 : (pre ++ mem0.drop off).take off = pre := by
    rw [List.take_append_of_le_length (by omega), List.take_of_length_le (by omega)]
  have h2 : (pre ++ mem0.drop off).drop (off + bytes.length)
      = mem0.drop (off + bytes.length) := by
    rw [← hpre, List.drop_append, List.drop_drop]
  rw [h1, h2]
  apply List.take_of_length_le
  simp only [List.length_append, List.length_drop]
  omega

theorem storeBytes_whole (mem bytes : List Nat) (h : bytes.length = mem.length) :
    storeBytes mem 0 bytes = bytes := by
  unfold storeBytes
  simp only [List.take_zero, List.nil_append, Nat.zero_add]
  rw [List.drop_of_length_le (by omega), List.append_nil, List.take_of_length_le (by omega)]


theorem storeBytes_next (pre bytes mem0 : List Nat) (off n off2 : Nat)
    (hpre : pre.length = off) (hn : bytes.length = n) (hoff : off2 = off + n)
    (hlen : off2 ≤ mem0.length) :
    storeBytes (pre ++ mem0.drop off) off bytes = (pre ++ bytes) ++ mem0.drop off2 := by
  subst hn hoff
  exact storeBytes_step pre bytes mem0 off hpre hlen

/-- Ten consecutive stores into a 60-byte region: four 12-byte records from
offset 0 and six 2-byte values from offset 48 replace the whole region. -/
theorem storeBytes_chain (mem0 B0 B1 B2 B3 C0 C1 C2 C3 C4 C5 : List Nat)
    (hL : mem0.length = 60)
    (h0 : B0.length = 12) (h1 : B1.length = 12) (h2 : B2.length = 12) (h3 : B3.length = 12)
    (k0 : C0.length = 2) (k1 : C1.length = 2) (k2 : C2.length = 2) (k3 : C3.length = 2)
    (k4 : C4.length = 2) (k5 : C5.length = 2) :
    storeBytes (storeBytes (storeBytes (storeBytes (storeBytes (storeBytes (storeBytes
      (storeBytes (storeBytes (storeBytes mem0 0 B0) 12 B1) 24 B2) 36 B3) 48 C0) 50 C1)
      52 C2) 54 C3) 56 C4) 58 C5
      = (B0 ++ B1 ++ B2 ++ B3) ++ (C0 ++ C1 ++ C2 ++ C3 ++ C4 ++ C5) := by
  have e0 : storeBytes mem0 0 B0 = ([] ++ B0) ++ mem0.drop 12 :=
    storeBytes_next [] B0 mem0 0 12 12 rfl h0 rfl (by omega)
  rw [e0,
    storeBytes_next _ B1 mem0 12 12 24 (by simp [h0]) h1 rfl (by omega),
    storeBytes_next _ B2 mem0 24 12 36 (by simp [h0, h1]) h2 rfl (by omega),
    storeBytes_next _ B3 mem0 36 12 48 (by simp [h0, h1, h2]) h3 rfl (by omega),
    storeBytes_next _ C0 mem0 48 2 50 (by simp [h0, h1, h2, h3]) k0 rfl (by omega),
    storeBytes_next _ C1 mem0 50 2 52 (by simp [h0, h1, h2, h3, k0]) k1 rfl (by omega),
    storeBytes_next _ C2 mem0 52 2 54 (by simp [h0, h1, h2, h3, k0, k1]) k2 rfl (by omega),
    storeBytes_next _ C3 mem0 54 2 56 (by simp [h0, h1, h2, h3, k0, k1, k2]) k3 rfl
      (by omega),
    storeBytes_next _ C4 mem0 56 2 58 (by simp [h0, h1, h2, h3, k0, k1, k2, k3]) k4 rfl
      (by omega),
    storeBytes_next _ C5 mem0 58 2 60 (by simp [h0, h1, h2, h3, k0, k1, k2, k3, k4]) k5 rfl
      (by omega),
    List.drop_of_length_le (by omega)]
  simp only [List.nil_append, List.append_nil, List.append_assoc]

theorem bytesOfPositionVertex_length (v : PositionVertex) :
    (bytesOfPositionVertex v).length = 12 := rfl

theorem bytesOfUint16_length (v : Nat) : (bytesOfUint16 v).length = 2 := rfl

theorem Init_stagedUpload_transfer (w : World) (v0 v1 v2 v3 : PositionVertex)
    (i0 i1 i2 i3 i4 i5 : Nat) :
    (Init_stagedUpload w v0 v1 v2 v3 i0 i1 i2 i3 i4 i5).transferBuffer
      = (bytesOfPositionVertex v0 ++ bytesOfPositionVertex v1 ++
          bytesOfPositionVertex v2 ++ bytesOfPositionVertex v3) ++
        (bytesOfUint16 i0 ++ bytesOfUint16 i1 ++ bytesOfUint16 i2 ++
          bytesOfUint16 i3 ++ bytesOfUint16 i4 ++ bytesOfUint16 i5) := by
  simp only [Init_stagedUpload, sizeof_PositionVertex, sizeof_float, sizeof_uint16_t,
    Nat.reduceMul, Nat.reduceAdd]
  exact storeBytes_chain _ _ _ _ _ _ _ _ _ _ _ (freshBuffer_length _ _)
    (bytesOfPositionVertex_length _) (bytesOfPositionVertex_length _)
    (bytesOfPositionVertex_length _) (bytesOfPositionVertex_length _)
    (bytesOfUint16_length _) (bytesOfUint16_length _) (bytesOfUint16_length _)
    (bytesOfUint16_length _) (bytesOfUint16_length _) (bytesOfUint16_length _)

theorem loadBytes_prefix (a b : List Nat) (n : Nat) (h : a.length = n) :
    loadBytes (a ++ b) 0 n = a := by
  unfold loadBytes
  rw [List.drop_zero, List.take_append_of_le_length (by omega),
    List.take_of_length_le (by omega)]

theorem loadBytes_suffix (a b : List Nat) (off n : Nat) (ha : a.length = off)
    (hb : b.length = n) : loadBytes (a ++ b) off n = b := by
  unfold loadBytes
  rw [← ha, List.drop_left, List.take_of_length_le (by omega)]

theorem Init_stagedUpload_vertexBuffer (w : World) (v0 v1 v2 v3 : PositionVertex)
    (i0 i1 i2 i3 i4 i5 : Nat) :
    (Init_stagedUpload w v0 v1 v2 v3 i0 i1 i2 i3 i4 i5).vertexBuffer
      = bytesOfPositionVertex v0 ++ bytesOfPositionVertex v1 ++
        bytesOfPositionVertex v2 ++ bytesOfPositionVertex v3 := by
  have ht := Init_stagedUpload_transfer w v0 v1 v2 v3 i0 i1 i2 i3 i4 i5
  have e : (Init_stagedUpload w v0 v1 v2 v3 i0 i1 i2 i3 i4 i5).vertexBuffer
      = SDL_UploadToGPUBuffer
          (Init_stagedUpload w v0 v1 v2 v3 i0 i1 i2 i3 i4 i5).transferBuffer 0
          (freshBuffer 48 w.vertexBufferInit) 0 48 := by
    simp only [Init_stagedUpload, sizeof_PositionVertex, sizeof_float, sizeof_uint16_t,
      Nat.reduceMul, Nat.reduceAdd]
  have hl : (bytesOfPositionVertex v0 ++ bytesOfPositionVertex v1 ++
      bytesOfPositionVertex v2 ++ bytesOfPositionVertex v3).length = 48 := by
    simp only [List.length_append, bytesOfPositionVertex_length]
  rw [e, ht, SDL_UploadToGPUBuffer, loadBytes_prefix _ _ 48 hl,
    storeBytes_whole _ _ (by rw [freshBuffer_length, hl])]

theorem Init_stagedUpload_indexBuffer (w : World) (v0 v1 v2 v3 : PositionVertex)
    (i0 i1 i2 i3 i4 i5 : Nat) :
    (Init_stagedUpload w v0 v1 v2 v3 i0 i1 i2 i3 i4 i5).indexBuffer
      = bytesOfUint16 i0 ++ bytesOfUint16 i1 ++ bytesOfUint16 i2 ++
        bytesOfUint16 i3 ++ bytesOfUint16 i4 ++ bytesOfUint16 i5 := by
  have ht := Init_stagedUpload_transfer w v0 v1 v2 v3 i0 i1 i2 i3 i4 i5
  have e : (Init_stagedUpload w v0 v1 v2 v3 i0 i1 i2 i3 i4 i5).indexBuffer
      = SDL_UploadToGPUBuffer
          (Init_stagedUpload w v0 v1 v2 v3 i0 i1 i2 i3 i4 i5).transferBuffer 48
          (freshBuffer 12 w.indexBufferInit) 0 12 := by
    simp only [Init_stagedUpload, sizeof_PositionVertex, sizeof_float, sizeof_uint16_t,
      Nat.reduceMul, Nat.reduceAdd]
  have hl : (bytesOfPositionVertex v0 ++ bytesOfPositionVertex v1 ++
      bytesOfPositionVertex v2 ++ bytesOfPositionVertex v3).length = 48 := by
    simp only [List.length_append, bytesOfPositionVertex_length]
  have hk : (bytesOfUint16 i0 ++ bytesOfUint16 i1 ++ bytesOfUint16 i2 ++
      bytesOfUint16 i3 ++ bytesOfUint16 i4 ++ bytesOfUint16 i5).length = 12 := by
    simp only [List.length_append, bytesOfUint16_length]
  rw [e, ht, SDL_UploadToGPUBuffer, loadBytes_suffix _ _ 48 12 hl hk,
    storeBytes_whole _ _ (by rw [freshBuffer_length, hk])]

/-- C10: for every world and every four vertex values and six index values
written, the staged upload of `Init` leaves in the vertex buffer exactly the 48
bytes of the four vertices and in the index buffer exactly the 12 bytes of the
six indices; the transfer buffer is 60 bytes, the vertices followed by the
indices; the two source regions are [0, 48) and [48, 60): disjoint, adjacent,
and together the whole transfer buffer. For the data `Init` ships, the buffers
hold the bytes of the quad corners and of 0, 1, 2, 0, 2, 3. -/
theorem Init_stagedUpload_roundtrip (w : World) (v0 v1 v2 v3 : PositionVertex)
    (i0 i1 i2 i3 i4 i5 : Nat) :
    (Init_stagedUpload w v0 v1 v2 v3 i0 i1 i2 i3 i4 i5).vertexBuffer
      = bytesOfPositionVertex v0 ++ bytesOfPositionVertex v1 ++
        bytesOfPositionVertex v2 ++ bytesOfPositionVertex v3 ∧
    (Init_stagedUpload w v0 v1 v2 v3 i0 i1 i2 i3 i4 i5).indexBuffer
      = bytesOfUint16 i0 ++ bytesOfUint16 i1 ++ bytesOfUint16 i2 ++
        bytesOfUint16 i3 ++ bytesOfUint16 i4 ++ bytesOfUint16 i5 ∧
    (Init_stagedUpload w v0 v1 v2 v3 i0 i1 i2 i3 i4 i5).transferBuffer
      = (bytesOfPositionVertex v0 ++ bytesOfPositionVertex v1 ++
          bytesOfPositionVertex v2 ++ bytesOfPositionVertex v3) ++
        (bytesOfUint16 i0 ++ bytesOfUint16 i1 ++ bytesOfUint16 i2 ++
          bytesOfUint16 i3 ++ bytesOfUint16 i4 ++ bytesOfUint16 i5) ∧
    (Init_stagedUpload w v0 v1 v2 v3 i0 i1 i2 i3 i4 i5).transferBuffer.length = 60 ∧
    (Init_stagedUpload w v0 v1 v2 v3 i0 i1 i2 i3 i4 i5).vertexSource
      = { offset := 0, size := 48 } ∧
    (Init_stagedUpload w v0 v1 v2 v3 i0 i1 i2 i3 i4 i5).indexSource
      = { offset := 48, size := 12 } ∧
    (∀ i, ¬ ((Init_stagedUpload w v0 v1 v2 v3 i0 i1 i2 i3 i4 i5).vertexSource.Mem i ∧
        (Init_stagedUpload w v0 v1 v2 v3 i0 i1 i2 i3 i4 i5).indexSource.Mem i)) ∧
    (Init_stagedUpload w v0 v1 v2 v3 i0 i1 i2 i3 i4 i5).vertexSource.offset +
        (Init_stagedUpload w v0 v1 v2 v3 i0 i1 i2 i3 i4 i5).vertexSource.size
      = (Init_stagedUpload w v0 v1 v2 v3 i0 i1 i2 i3 i4 i5).indexSource.offset ∧
    (∀ i, i < (Init_stagedUpload w v0 v1 v2 v3 i0 i1 i2 i3 i4 i5).transferBuffer.length ↔
      ((Init_stagedUpload w v0 v1 v2 v3 i0 i1 i2 i3 i4 i5).vertexSource.Mem i ∨
        (Init_stagedUpload w v0 v1 v2 v3 i0 i1 i2 i3 i4 i5).indexSource.Mem i)) ∧
    (∀ basePath, (Init w basePath).upload = none ∨
      ∃ r, (Init w basePath).upload = some r ∧
        r.vertexBuffer =
          [0, 0, 0, 191, 0, 0, 0, 191, 0, 0, 0, 0,
           0, 0, 0, 63, 0, 0, 0, 191, 0, 0, 0, 0,
           0, 0, 0, 63, 0, 0, 0, 63, 0, 0, 0, 0,
           0, 0, 0, 191, 0, 0, 0, 63, 0, 0, 0, 0] ∧
        r.indexBuffer = [0, 0, 1, 0, 2, 0, 0, 0, 2, 0, 3, 0]) := by
  have hT := Init_stagedUpload_transfer w v0 v1 v2 v3 i0 i1 i2 i3 i4 i5
  have hlen : (Init_stagedUpload w v0 v1 v2 v3 i0 i1 i2 i3 i4 i5).transferBuffer.length
      = 60 := by
    rw [hT]
    simp only [List.length_append, bytesOfPositionVertex_length, bytesOfUint16_length]
  have hvs : (Init_stagedUpload w v0 v1 v2 v3 i0 i1 i2 i3 i4 i5).vertexSource
      = { offset := 0, size := 48 } := by
    simp only [Init_stagedUpload, sizeof_PositionVertex, sizeof_float, Nat.reduceMul]
  have his : (Init_stagedUpload w v0 v1 v2 v3 i0 i1 i2 i3 i4 i5).indexSource
      = { offset := 48, size := 12 } := by
    simp only [Init_stagedUpload, sizeof_PositionVertex, sizeof_float, sizeof_uint16_t,
      Nat.reduceMul]
  refine ⟨Init_stagedUpload_vertexBuffer w v0 v1 v2 v3 i0 i1 i2 i3 i4 i5,
    Init_stagedUpload_indexBuffer w v0 v1 v2 v3 i0 i1 i2 i3 i4 i5, hT, hlen, hvs, his,
    ?_, ?_, ?_, ?_⟩
  · intro i h
    rw [hvs, his] at h
    simp only [Region.Mem] at h
    omega
  · rw [hvs, his]
    rfl
  · intro i
    rw [hlen, hvs, his]
    simp only [Region.Mem]
    omega
  · intro basePath
    unfold Init
    by_cases hg : (GeneralInit w).1 < 0
    · left; simp only [hg, if_true]
    · simp only [hg, if_false]
      cases hv : (LoadShader w basePath "position.vert".toList 0 0 0 0).1 with
      | none => left; rfl
      | some vs =>
        cases hf : (LoadShader w basePath "solidColor.frag".toList 0 1 0 0).1 with
        | none => left; rfl
        | some fs =>
          right
          refine ⟨_, rfl, ?_, ?_⟩
          · rw [Init_stagedUpload_vertexBuffer]
            decide
          · rw [Init_stagedUpload_indexBuffer]
            decide

/-! ## Theorems: image loading -/

/-- The outcome of `LoadImage` for a channel count other than 4, by the outcome
of the file read. -/
theorem LoadImage_of_ne_four (w : World) (basePath : Option (List Char))
    (imageFileName : List Char) (desiredChannels : Int) (h : desiredChannels ≠ 4) :
    LoadImage w basePath imageFileName desiredChannels =
      match w.loadBMP (imageFullPath basePath imageFileName) with
      | none =>
        (none, [Event.SDL_LoadBMP (imageFullPath basePath imageFileName),
          Event.SDL_LogError "Failed to load BMP error: %s"])
      | some result =>
        (none, Event.SDL_LoadBMP (imageFullPath basePath imageFileName) ::
          Event.SDL_assert "Unexpected desiredChannels" ::
          (if w.assertReturns then [Event.SDL_DestroySurface result] else [])) := by
  simp only [LoadImage]
  cases hb : w.loadBMP (imageFullPath basePath imageFileName) with
  | none => rfl
  | some result =>
    simp only [h, if_false]
    cases w.assertReturns <;> rfl

/-- C11 (as stated, refuted): with `desiredChannels = 3` and the name "a.bmp",
`LoadImage` reads the file before it looks at the channel count, and what it
does depends on the file system: when the file does not load it logs the load
failure and never reaches the channel check; when the file loads it reaches the
failed assertion "Unexpected desiredChannels" and destroys the loaded surface. -/
theorem LoadImage_channel_check_after_file_read :
    LoadImage (imageWorld none) (some "/app/".toList) "a.bmp".toList 3
      = (none, [Event.SDL_LoadBMP "/app/assets/a.bmp".toList,
          Event.SDL_LogError "Failed to load BMP error: %s"]) ∧
    LoadImage (imageWorld (some onePixel)) (some "/app/".toList) "a.bmp".toList 3
      = (none, [Event.SDL_LoadBMP "/app/assets/a.bmp".toList,
          Event.SDL_assert "Unexpected desiredChannels",
          Event.SDL_DestroySurface onePixel]) ∧
    ¬ (∀ (w1 w2 : World) (basePath : Option (List Char)) (imageFileName : List Char)
        (desiredChannels : Int), desiredChannels ≠ 4 →
        LoadImage w1 basePath imageFileName desiredChannels
          = LoadImage w2 basePath imageFileName desiredChannels) ∧
    ¬ (∀ (w : World) (basePath : Option (List Char)) (imageFileName : List Char)
        (desiredChannels : Int), desiredChannels ≠ 4 →
        Event.SDL_assert "Unexpected desiredChannels"
          ∈ (LoadImage w basePath imageFileName desiredChannels).2) ∧
    ¬ (∀ (w : World) (basePath : Option (List Char)) (imageFileName : List Char)
        (desiredChannels : Int), desiredChannels ≠ 4 →
        ∀ path, Event.SDL_LoadBMP path
          ∉ (LoadImage w basePath imageFileName desiredChannels).2) := by
  have e1 : LoadImage (imageWorld none) (some "/app/".toList) "a.bmp".toList 3
      = (none, [Event.SDL_LoadBMP "/app/assets/a.bmp".toList,
          Event.SDL_LogError "Failed to load BMP error: %s"]) := by decide
  have e2 : LoadImage (imageWorld (some onePixel)) (some "/app/".toList) "a.bmp".toList 3
      = (none, [Event.SDL_LoadBMP "/app/assets/a.bmp".toList,
          Event.SDL_assert "Unexpected desiredChannels",
          Event.SDL_DestroySurface onePixel]) := by decide
  refine ⟨e1, e2, ?_, ?_, ?_⟩
  · intro h
    have h3 := h (imageWorld none) (imageWorld (some onePixel)) (some "/app/".toList)
      "a.bmp".toList 3 (by decide)
    rw [e1, e2] at h3
    revert h3
    decide
  · intro h
    have h3 := h (imageWorld none) (some "/app/".toList) "a.bmp".toList 3 (by decide)
    rw [e1] at h3
    revert h3
    decide
  · intro h
    have h3 := h (imageWorld (some onePixel)) (some "/app/".toList) "a.bmp".toList 3
      (by decide) "/app/assets/a.bmp".toList
    rw [e2] at h3
    revert h3
    decide

/-- C11 (amended): for every image name, every channel count other than 4 and
every world, `LoadImage` returns `NULL`, and its first external call is the
file read `SDL_LoadBMP` on the image path. When that read fails, the only
other call is the log of the load failure; when it succeeds, the next call is
the failed assertion "Unexpected desiredChannels", after which the loaded
surface is destroyed if the assertion returns. -/
theorem LoadImage_rejects_other_channel_counts (w : World)
    (basePath : Option (List Char)) (imageFileName : List Char) (desiredChannels : Int)
    (h : desiredChannels ≠ 4) :
    (LoadImage w basePath imageFileName desiredChannels).1 = none ∧
    (LoadImage w basePath imageFileName desiredChannels).2.head?
      = some (Event.SDL_LoadBMP (imageFullPath basePath imageFileName)) ∧
    (w.loadBMP (imageFullPath basePath imageFileName) = none →
      (LoadImage w basePath imageFileName desiredChannels).2
        = [Event.SDL_LoadBMP (imageFullPath basePath imageFileName),
            Event.SDL_LogError "Failed to load BMP error: %s"]) ∧
    (∀ result, w.loadBMP (imageFullPath basePath imageFileName) = some result →
      (LoadImage w basePath imageFileName desiredChannels).2
        = Event.SDL_LoadBMP (imageFullPath basePath imageFileName) ::
          Event.SDL_assert "Unexpected desiredChannels" ::
          (if w.assertReturns then [Event.SDL_DestroySurface result] else [])) := by
  rw [LoadImage_of_ne_four w basePath imageFileName desiredChannels h]
  cases hb : w.loadBMP (imageFullPath basePath imageFileName) with
  | none =>
    refine ⟨rfl, rfl, fun _ => rfl, ?_⟩
    intro result hr
    cases hr
  | some result =>
    refine ⟨rfl, rfl, ?_, ?_⟩
    · intro hn
      cases hn
    · intro r hr
      cases hr
      rfl

/-- Witness of C11 (amended) at the name "a.bmp" with 3 channels, in a world
where the bitmap loads. -/
theorem LoadImage_rejects_other_channel_counts_witness :
    (3 : Int) ≠ 4 ∧
    (LoadImage (imageWorld (some onePixel)) (some "/app/".toList) "a.bmp".toList 3).1 = none ∧
    (LoadImage (imageWorld (some onePixel)) (some "/app/".toList) "a.bmp".toList 3).2.head?
      = some (Event.SDL_LoadBMP (imageFullPath (some "/app/".toList) "a.bmp".toList)) :=
  ⟨by decide,
    (LoadImage_rejects_other_channel_counts (imageWorld (some onePixel))
      (some "/app/".toList) "a.bmp".toList 3 (by decide)).1,
    (LoadImage_rejects_other_channel_counts (imageWorld (some onePixel))
      (some "/app/".toList) "a.bmp".toList 3 (by decide)).2.1⟩

/-! ## Theorems: compute pipeline -/

/-- On every path `CreateComputePipelineFromShader` leaves the caller's
descriptor as it found it. -/
theorem CreateComputePipelineFromShader_createInfo (w : World)
    (basePath : Option (List Char)) (fileName : List Char)
    (d : SDL_GPUComputePipelineCreateInfo) :
    (CreateComputePipelineFromShader w basePath fileName d).createInfo = d := by
  simp only [CreateComputePipelineFromShader]
  split
  · split
    · rfl
    · split <;> rfl
  · rfl

/-- C12: when the device accepts SPIR-V and the shader binary loads as `code`,
the one descriptor `CreateComputePipelineFromShader` submits to
`SDL_CreateGPUComputePipeline` has `code`, its length, "main" and the SPIR-V
format in the fields code, code_size, entrypoint and format, and the value of
`d` in each of the ten other fields; the handle returned is the device's answer
to that descriptor; and the caller's descriptor equals `d` when the call
returns, whether the device returned a pipeline or `NULL`. -/
theorem CreateComputePipelineFromShader_copy_then_override (w : World)
    (basePath : Option (List Char)) (fileName : List Char)
    (d : SDL_GPUComputePipelineCreateInfo) (code : List Nat)
    (hfmt : w.shaderFormats &&& SDL_GPU_SHADERFORMAT_SPIRV ≠ 0)
    (hfile : w.loadFile (shaderFullPath basePath fileName) = some code) :
    Event.SDL_CreateGPUComputePipeline
        { code_size := code.length, code := code, entrypoint := "main".toList
          format := SDL_GPU_SHADERFORMAT_SPIRV
          num_samplers := d.num_samplers
          num_readonly_storage_textures := d.num_readonly_storage_textures
          num_readonly_storage_buffers := d.num_readonly_storage_buffers
          num_readwrite_storage_textures := d.num_readwrite_storage_textures
          num_readwrite_storage_buffers := d.num_readwrite_storage_buffers
          num_uniform_buffers := d.num_uniform_buffers
          threadcount_x := d.threadcount_x
          threadcount_y := d.threadcount_y
          threadcount_z := d.threadcount_z
          props := d.props }
      ∈ (CreateComputePipelineFromShader w basePath fileName d).events ∧
    (∀ info, Event.SDL_CreateGPUComputePipeline info
        ∈ (CreateComputePipelineFromShader w basePath fileName d).events →
      info =
        { code_size := code.length, code := code, entrypoint := "main".toList
          format := SDL_GPU_SHADERFORMAT_SPIRV
          num_samplers := d.num_samplers
          num_readonly_storage_textures := d.num_readonly_storage_textures
          num_readonly_storage_buffers := d.num_readonly_storage_buffers
          num_readwrite_storage_textures := d.num_readwrite_storage_textures
          num_readwrite_storage_buffers := d.num_readwrite_storage_buffers
          num_uniform_buffers := d.num_uniform_buffers
          threadcount_x := d.threadcount_x
          threadcount_y := d.threadcount_y
          threadcount_z := d.threadcount_z
          props := d.props }) ∧
    (CreateComputePipelineFromShader w basePath fileName d).pipeline
      = w.createGPUComputePipeline
          { code_size := code.length, code := code, entrypoint := "main".toList
            format := SDL_GPU_SHADERFORMAT_SPIRV
            num_samplers := d.num_samplers
            num_readonly_storage_textures := d.num_readonly_storage_textures
            num_readonly_storage_buffers := d.num_readonly_storage_buffers
            num_readwrite_storage_textures := d.num_readwrite_storage_textures
            num_readwrite_storage_buffers := d.num_readwrite_storage_buffers
            num_uniform_buffers := d.num_uniform_buffers
            threadcount_x := d.threadcount_x
            threadcount_y := d.threadcount_y
            threadcount_z := d.threadcount_z
            props := d.props } ∧
    (CreateComputePipelineFromShader w basePath fileName d).createInfo = d := by
  refine ⟨?_, ?_, ?_, CreateComputePipelineFromShader_createInfo w basePath fileName d⟩
  · simp only [CreateComputePipelineFromShader, hfmt, ne_eq, not_false_eq_true, if_true,
      hfile]
    split <;> simp
  · intro info hmem
    simp only [CreateComputePipelineFromShader, hfmt, ne_eq, not_false_eq_true, if_true,
      hfile] at hmem
    cases hc : w.createGPUComputePipeline
        { code_size := code.length, code := code, entrypoint := "main".toList
          format := SDL_GPU_SHADERFORMAT_SPIRV
          num_samplers := d.num_samplers
          num_readonly_storage_textures := d.num_readonly_storage_textures
          num_readonly_storage_buffers := d.num_readonly_storage_buffers
          num_readwrite_storage_textures := d.num_readwrite_storage_textures
          num_readwrite_storage_buffers := d.num_readwrite_storage_buffers
          num_uniform_buffers := d.num_uniform_buffers
          threadcount_x := d.threadcount_x
          threadcount_y := d.threadcount_y
          threadcount_z := d.threadcount_z
          props := d.props } <;>
      rw [hc] at hmem <;> simpa using hmem
  · simp only [CreateComputePipelineFromShader, hfmt, ne_eq, not_false_eq_true, if_true,
      hfile]
    cases hc : w.createGPUComputePipeline
        { code_size := code.length, code := code, entrypoint := "main".toList
          format := SDL_GPU_SHADERFORMAT_SPIRV
          num_samplers := d.num_samplers
          num_readonly_storage_textures := d.num_readonly_storage_textures
          num_readonly_storage_buffers := d.num_readonly_storage_buffers
          num_readwrite_storage_textures := d.num_readwrite_storage_textures
          num_readwrite_storage_buffers := d.num_readwrite_storage_buffers
          num_uniform_buffers := d.num_uniform_buffers
          threadcount_x := d.threadcount_x
          threadcount_y := d.threadcount_y
          threadcount_z := d.threadcount_z
          props := d.props } <;> rfl

/-- Witness of C12: a device that accepts the pipeline (`sampleComputeInfo`) and
one that rejects it (the same descriptor with `threadcount_x = 0`); in both the
caller's descriptor is unchanged. -/
theorem CreateComputePipelineFromShader_copy_then_override_witness :
    ((worldWith true none).shaderFormats &&& SDL_GPU_SHADERFORMAT_SPIRV ≠ 0 ∧
      (worldWith true none).loadFile (shaderFullPath (some "/app/".toList) "fill.comp".toList)
        = some [3, 2, 35, 7]) ∧
    ((CreateComputePipelineFromShader (worldWith true none) (some "/app/".toList)
        "fill.comp".toList sampleComputeInfo).pipeline = some 3 ∧
      (CreateComputePipelineFromShader (worldWith true none) (some "/app/".toList)
        "fill.comp".toList sampleComputeInfo).createInfo = sampleComputeInfo) ∧
    ((CreateComputePipelineFromShader (worldWith true none) (some "/app/".toList)
        "fill.comp".toList { sampleComputeInfo with threadcount_x := 0 }).pipeline = none ∧
      (CreateComputePipelineFromShader (worldWith true none) (some "/app/".toList)
        "fill.comp".toList { sampleComputeInfo with threadcount_x := 0 }).createInfo
        = { sampleComputeInfo with threadcount_x := 0 }) :=
  ⟨⟨by decide, by decide⟩,
    ⟨by decide,
      (CreateComputePipelineFromShader_copy_then_override (worldWith true none)
        (some "/app/".toList) "fill.comp".toList sampleComputeInfo [3, 2, 35, 7]
        (by decide) (by decide)).2.2.2⟩,
    ⟨by decide,
      (CreateComputePipelineFromShader_copy_then_override (worldWith true none)
        (some "/app/".toList) "fill.comp".toList { sampleComputeInfo with threadcount_x := 0 }
        [3, 2, 35, 7] (by decide) (by decide)).2.2.2⟩⟩

end GpuTest


